import Mathlib

/-!
# Verification of the Stack frame-tree context-management plugin

Shallow embedding of the plugin's core (frame store, invalidation cascade,
identity replacement, context assembly with caching, ancestor/sibling
selection, push heuristics, subagent frame creation) translated from the
TypeScript source, together with theorems settling the specification claims.

Conventions of the embedding:
* JavaScript objects used as string-keyed maps (`state.frames`, the context
  cache) are modelled as insertion-ordered association lists; `alSet`
  overwrites in place when the key exists and appends otherwise, matching
  JS property assignment, and `Object.values` is `alValues`.
* `Date.now()` is an explicit `now : Nat` parameter threaded through each
  operation (one operation is modelled as reading a single clock value).
* JS numbers appearing in fractional positions (score arithmetic, rounded
  averages) are modelled as exact rationals `ℚ`; `Math.round x` is
  `⌊x + 1/2⌋` and `Math.floor` is `⌊·⌋`, which agree with IEEE doubles on
  all inputs relevant here.
* `undefined`-able fields are `Option`s; JS string truthiness (`undefined`
  and `""` are falsy) is `jsTruthyStr` / `jsOrStr`.
* Async file persistence (`saveState` / `saveFrame`) is modelled by its
  effect on the single aggregate: `saveState` stamps `state.updatedAt := now`
  and `saveFrame f` stamps `f.updatedAt := now` on the in-memory record,
  exactly as the source mutates them.
-/

/-- JS `Math.round` on a rational: round half away from zero for the
non-negative values occurring here (`Math.round x = ⌊x + 1/2⌋`). -/
def jsRound (q : ℚ) : ℤ := ⌊q + 1/2⌋

/-- JS `Math.min` on two numbers. -/
def jsMin (a b : ℚ) : ℚ := if a ≤ b then a else b

/-- JS `Math.max` on two numbers. -/
def jsMax (a b : ℚ) : ℚ := if a ≤ b then b else a

/-- JS string truthiness for an optional string: `undefined` and `""` are falsy. -/
def jsTruthyStr : Option String → Bool
  | none => false
  | some s => s ≠ ""

/-- JS `a || b` for an optional string `a` with default `b`. -/
def jsOrStr (o : Option String) (d : String) : String :=
  match o with
  | none => d
  | some s => if s = "" then d else s

/-- Whitespace as recognized by JS `String.prototype.trim` (the characters
occurring in the modelled strings). -/
def isWsChar (c : Char) : Bool :=
  c = ' ' ∨ c = '\t' ∨ c = '\n' ∨ c = '\r'

/-- JS `String.prototype.trim`: strip leading and trailing whitespace. -/
def jsTrim (s : String) : String :=
  String.mk ((((s.data.dropWhile isWsChar).reverse.dropWhile
    isWsChar).reverse))

/-- JS `a || b` for an optional number with default `b` (0 is falsy). -/
def jsOrNat (o : Option Nat) (d : Nat) : Nat :=
  match o with
  | none => d
  | some n => if n = 0 then d else n

/-- One step of a stable insertion sort. `keep a b = true` means an element
`a` already placed stays in front of the element `b` being inserted; with
`keep a b = ¬(cmp b a < 0)` this matches a stable JS `Array.prototype.sort`
with comparator `cmp` (ties keep their original relative order). -/
def stableInsert (keep : α → α → Bool) (x : α) : List α → List α
  | [] => [x]
  | y :: ys => if keep y x then y :: stableInsert keep x ys else x :: y :: ys

/-- Stable sort: insert the elements left to right, each after every already
placed element it does not displace. -/
def stableSort (keep : α → α → Bool) (l : List α) : List α :=
  l.foldl (fun acc x => stableInsert keep x acc) []

/-- JS `Array.prototype.findIndex` (−1 when absent). -/
def jsFindIndex (p : α → Bool) : List α → ℤ
  | [] => -1
  | x :: xs => if p x then 0 else
      let r := jsFindIndex p xs
      if r = -1 then -1 else r + 1

/-- Replace the first occurrence of `a` by `b` in a list
(JS `indexOf` + assignment at that index). -/
def replaceFirst [DecidableEq α] (l : List α) (a b : α) : List α :=
  match l with
  | [] => []
  | x :: xs => if x = a then b :: xs else x :: replaceFirst xs a b

/-- Insertion-ordered string-keyed association list, the model of a JS object
used as a map. -/
abbrev JMap (α : Type) := List (String × α)

/-- Lookup (`obj[k]`, `undefined` as `none`). -/
def alGet : JMap α → String → Option α
  | [], _ => none
  | (k', v) :: rest, k => if k' = k then some v else alGet rest k

/-- Assignment `obj[k] = v`: overwrite in place if present, else append. -/
def alSet : JMap α → String → α → JMap α
  | [], k, v => [(k, v)]
  | (k', v') :: rest, k, v =>
      if k' = k then (k, v) :: rest else (k', v') :: alSet rest k v

/-- `delete obj[k]` (on the duplicate-free lists JS guarantees, removing
every binding of `k` coincides with removing the one binding). -/
def alErase (l : JMap α) (k : String) : JMap α :=
  l.filter (fun p => p.1 ≠ k)

/-- `Object.values(obj)` (insertion order). -/
def alValues (l : JMap α) : List α := l.map Prod.snd

/-- Apply `g` to every stored value, keys untouched (the shape of a JS
`for (const v of Object.values(obj)) ... mutate v ...` loop). -/
def alMapValues (g : α → α) (l : JMap α) : JMap α :=
  l.map (fun p => (p.1, g p.2))

-- ============================================================================
-- Data model (source: type definitions `FrameStatus`, `FrameMetadata`,
-- `StackState`, `TokenBudget`, `CacheEntry`, `ContextMetadata`)
-- ============================================================================

/-- Frame status per SPEC.md. -/
inductive FrameStatus
  | planned
  | in_progress
  | completed
  | failed
  | blocked
  | invalidated
deriving DecidableEq, Repr

/-- The string a `FrameStatus` value is in JS (used in messages and hashes). -/
def statusText : FrameStatus → String
  | .planned => "planned"
  | .in_progress => "in_progress"
  | .completed => "completed"
  | .failed => "failed"
  | .blocked => "blocked"
  | .invalidated => "invalidated"

/-- Frame metadata stored for each session acting as a frame. -/
structure FrameMetadata where
  sessionID : String
  parentSessionID : Option String
  status : FrameStatus
  title : String
  successCriteria : String
  successCriteriaCompacted : String
  results : Option String
  resultsCompacted : Option String
  createdAt : Nat
  updatedAt : Nat
  artifacts : List String
  decisions : List String
  logPath : Option String
  invalidationReason : Option String
  invalidatedAt : Option Nat
  plannedChildren : Option (List String)
deriving DecidableEq, Repr

/-- Root frame tree state (the persisted aggregate). -/
structure StackState where
  version : Nat
  frames : JMap FrameMetadata
  activeFrameID : Option String
  rootFrameIDs : List String
  updatedAt : Nat
deriving DecidableEq, Repr

-- ============================================================================
-- Frame State Manager (source: class `FrameStateManager`)
-- ============================================================================

/-- `FrameStateManager.createFrame`: new `in_progress` frame, becomes active,
tracked as root when parentless; silently overwrites any existing binding of
`sessionID` (the source performs no existence check). -/
def createFrame (state : StackState) (now : Nat) (sessionID title successCriteria
    successCriteriaCompacted : String) (parentSessionID : Option String) :
    StackState × FrameMetadata :=
  let frame : FrameMetadata :=
    { sessionID := sessionID
      parentSessionID := parentSessionID
      status := .in_progress
      title := title
      successCriteria := successCriteria
      successCriteriaCompacted := successCriteriaCompacted
      results := none
      resultsCompacted := none
      createdAt := now
      updatedAt := now
      artifacts := []
      decisions := []
      logPath := none
      invalidationReason := none
      invalidatedAt := none
      plannedChildren := none }
  let frames' := alSet state.frames sessionID frame
  let roots' := if ¬ jsTruthyStr parentSessionID
    then state.rootFrameIDs ++ [sessionID] else state.rootFrameIDs
  ({ state with
      frames := frames', activeFrameID := some sessionID,
      rootFrameIDs := roots', updatedAt := now }, frame)

/-- `FrameStateManager.createPlannedFrame`: new `planned` frame; does not
change the active frame; appended to the parent's `plannedChildren` when the
parent exists; silently overwrites any existing binding of `sessionID`. -/
def createPlannedFrame (state : StackState) (now : Nat) (sessionID title
    successCriteria successCriteriaCompacted : String)
    (parentSessionID : Option String) : StackState × FrameMetadata :=
  let frame : FrameMetadata :=
    { sessionID := sessionID
      parentSessionID := parentSessionID
      status := .planned
      title := title
      successCriteria := successCriteria
      successCriteriaCompacted := successCriteriaCompacted
      results := none
      resultsCompacted := none
      createdAt := now
      updatedAt := now
      artifacts := []
      decisions := []
      logPath := none
      invalidationReason := none
      invalidatedAt := none
      plannedChildren := some [] }
  let frames1 := alSet state.frames sessionID frame
  let frames2 :=
    match parentSessionID with
    | none => frames1
    | some pid =>
        match alGet frames1 pid with
        | none => frames1
        | some parent =>
            let pcs := parent.plannedChildren.getD []
            alSet frames1 pid
              { parent with
                  plannedChildren := some (pcs ++ [sessionID]),
                  updatedAt := now }
  let roots' := if ¬ jsTruthyStr parentSessionID
    then state.rootFrameIDs ++ [sessionID] else state.rootFrameIDs
  ({ state with frames := frames2, rootFrameIDs := roots', updatedAt := now },
   frame)

/-- `FrameStateManager.completeFrame`: sets result fields and status
unconditionally (no terminal-status or root check), moves `activeFrameID` to
the frame's parent, returns the parent id (`none` inner option for a root).
Outer `none` when the frame is unknown. -/
def completeFrame (state : StackState) (now : Nat) (sessionID : String)
    (status : FrameStatus) (results resultsCompacted : String) :
    StackState × Option (Option String) :=
  match alGet state.frames sessionID with
  | none => (state, none)
  | some frame =>
      let frame' := { frame with
          status := status, results := some results,
          resultsCompacted := some resultsCompacted, updatedAt := now }
      let parentID := frame.parentSessionID
      ({ state with
          frames := alSet state.frames sessionID frame',
          activeFrameID := parentID, updatedAt := now }, some parentID)

/-- Children of `pid` (source helper inside `invalidateFrame`:
`Object.values(state.frames).filter(f => f.parentSessionID === parentID)`). -/
def childrenOf (frames : JMap FrameMetadata) (pid : String) :
    List FrameMetadata :=
  (alValues frames).filter (fun f => f.parentSessionID = some pid)

/-- `getAllDescendants` from `invalidateFrame`, fuel-bounded: on the acyclic
trees the store maintains (every parent chain reaches a root), a fuel of
`frames.length` explores every descendant, matching the terminating JS
recursion. -/
def getAllDescendants (frames : JMap FrameMetadata) :
    Nat → String → List FrameMetadata
  | 0, _ => []
  | fuel + 1, pid =>
      let children := childrenOf frames pid
      children ++ children.flatMap (fun c => getAllDescendants frames fuel c.sessionID)

/-- The invalidated version of the target frame itself (the field updates
`invalidateFrame` applies to it). -/
def invalidatedMainFrame (frame : FrameMetadata) (now : Nat)
    (reason : String) : FrameMetadata :=
  { frame with
      status := .invalidated, invalidationReason := some reason,
      invalidatedAt := some now, updatedAt := now }

/-- The cascade reason derived for a planned descendant. -/
def cascadeReason (reason : String) : String :=
  "Parent frame invalidated: " ++ reason

/-- The invalidated copy of a planned descendant (cascade branch of the loop
in `invalidateFrame`). -/
def cascadeInvalidate (now : Nat) (reason : String) (d : FrameMetadata) :
    FrameMetadata :=
  { d with
      status := .invalidated,
      invalidationReason := some (cascadeReason reason),
      invalidatedAt := some now, updatedAt := now }

/-- One iteration of the descendant loop in `invalidateFrame`. -/
def cascadeStep (now : Nat) (reason : String)
    (acc : JMap FrameMetadata × List FrameMetadata × List FrameMetadata)
    (d : FrameMetadata) :
    JMap FrameMetadata × List FrameMetadata × List FrameMetadata :=
  if d.status = .planned then
    let d' := cascadeInvalidate now reason d
    (alSet acc.1 d.sessionID d', acc.2.1 ++ [d'], acc.2.2)
  else if d.status = .in_progress then
    (acc.1, acc.2.1, acc.2.2 ++ [d])
  else acc

/-- `FrameStateManager.invalidateFrame`: invalidates the frame, cascades to
`planned` descendants, collects `in_progress` descendants as warnings, leaves
other descendants untouched, and moves the active frame to the parent when
the invalidated frame was active. Returns the new aggregate together with the
invalidated frame and both collected lists (`none` when the frame is
unknown). -/
def invalidateFrame (state : StackState) (now : Nat) (sessionID reason : String) :
    Option (StackState × FrameMetadata × List FrameMetadata × List FrameMetadata) :=
  match alGet state.frames sessionID with
  | none => none
  | some frame =>
      let frame' := invalidatedMainFrame frame now reason
      let frames1 := alSet state.frames sessionID frame'
      let descendants := getAllDescendants frames1 frames1.length sessionID
      let folded := descendants.foldl (cascadeStep now reason) (frames1, [], [])
      let active' := if state.activeFrameID = some sessionID
        then frame.parentSessionID else state.activeFrameID
      some ({ state with
          frames := folded.1, activeFrameID := active',
          updatedAt := now }, frame', folded.2.1, folded.2.2)

/-- The per-child update of `replaceFrameID`'s children loop: a frame whose
parent pointer is `oldID` is repointed at `newID` (and re-saved, stamping
`updatedAt`); every other frame is untouched. -/
def reparentChild (oldID newID : String) (now : Nat) (f : FrameMetadata) :
    FrameMetadata :=
  if f.parentSessionID = some oldID then
    { f with parentSessionID := some newID, updatedAt := now }
  else f

/-- `FrameStateManager.replaceFrameID`: renames a frame, updating the frames
map, every child's `parentSessionID`, the parent's `plannedChildren` entry,
`rootFrameIDs` and `activeFrameID`; unknown `oldID` leaves the aggregate
untouched. `saveFrame` stamps `updatedAt := now` on each rewritten record,
as in the source. -/
def replaceFrameID (state : StackState) (now : Nat) (oldID newID : String) :
    StackState :=
  match alGet state.frames oldID with
  | none => state
  | some frame =>
      let frame1 := { frame with sessionID := newID, updatedAt := now }
      let frames1 := alSet (alErase state.frames oldID) newID frame1
      let frames2 := alMapValues (reparentChild oldID newID now) frames1
      let frames3 :=
        match frame.parentSessionID with
        | none => frames2
        | some pid =>
            match alGet frames2 pid with
            | none => frames2
            | some parent =>
                match parent.plannedChildren with
                | none => frames2
                | some pcs =>
                    if oldID ∈ pcs then
                      alSet frames2 pid
                        { parent with
                          plannedChildren := some (replaceFirst pcs oldID newID),
                          updatedAt := now }
                    else frames2
      let roots' := replaceFirst state.rootFrameIDs oldID newID
      let active' := if state.activeFrameID = some oldID
        then some newID else state.activeFrameID
      { state with
          frames := frames3, activeFrameID := active',
          rootFrameIDs := roots', updatedAt := now }

-- ============================================================================
-- The stack_frame_pop command (source: `tool.stack_frame_pop.execute`)
-- ============================================================================

/-- `stack_frame_pop`'s `execute`, after resolving `args.frameID ||
runtime.currentSessionID` to `targetFrameID` (`""` models the falsy case).
Returns the resulting aggregate together with the command's error string
when a validation check rejects the call (each rejection happens before any
mutation, so the aggregate is returned untouched); on success the frame is
completed via `completeFrame` and no error is returned. -/
def stackFramePop (state : StackState) (now : Nat) (targetFrameID : String)
    (status : FrameStatus) (results resultsCompacted : String) :
    StackState × Option String :=
  if targetFrameID = "" then
    (state, some "Error: No frame ID provided and no active session")
  else if jsTrim results = "" then
    (state, some "Error: results is required. Provide detailed results of what was accomplished.")
  else if jsTrim resultsCompacted = "" then
    (state, some "Error: resultsCompacted is required. Provide a dense, information-rich compacted version.")
  else
    match alGet state.frames targetFrameID with
    | none => (state, some ("Error: Frame not found: " ++ targetFrameID))
    | some frame =>
        if ¬ jsTruthyStr frame.parentSessionID then
          (state, some "Error: Cannot pop from root frame. This is the top-level frame.")
        else if frame.status = .completed ∨ frame.status = .failed ∨
            frame.status = .invalidated then
          (state, some ("Error: Frame already has terminal status: " ++
            statusText frame.status ++ ". Cannot pop again."))
        else
          ((completeFrame state now targetFrameID status results
            resultsCompacted).1, none)

-- ============================================================================
-- Token budget manager (source: `estimateTokens`, `truncateToTokenBudget`,
-- `TokenBudget`, `DEFAULT_TOKEN_BUDGET`)
-- ============================================================================

/-- Token budget configuration. -/
structure TokenBudget where
  total : Nat
  ancestors : Nat
  siblings : Nat
  current : Nat
  overhead : Nat
deriving DecidableEq, Repr

/-- `DEFAULT_TOKEN_BUDGET`. -/
def DEFAULT_TOKEN_BUDGET : TokenBudget :=
  { total := 4000, ancestors := 1500, siblings := 1500, current := 800,
    overhead := 200 }

/-- `estimateTokens`: `Math.ceil(text.length / 4)` with the falsy short-circuit
for the empty string. -/
def estimateTokens (text : String) : Nat :=
  if text = "" then 0 else (text.length + 3) / 4

/-- JS `String.prototype.lastIndexOf` for a single character (−1 if absent). -/
def jsLastIndexOfChar (s : String) (c : Char) : ℤ :=
  let rec go : List Char → ℤ → ℤ → ℤ
    | [], _, best => best
    | x :: rest, i, best => go rest (i + 1) (if x = c then i else best)
  go s.data 0 (-1)

/-- `truncateToTokenBudget`: truncate `text` to `maxTokens` (adding
`indicator` on overflow, backing up to a word boundary when the last space
lies beyond 80% of the character limit). -/
def truncateToTokenBudget (text : String) (maxTokens : ℤ) (indicator : String) :
    String × Bool :=
  if text = "" then ("", false)
  else if (estimateTokens text : ℤ) ≤ maxTokens then (text, false)
  else
    let maxChars : ℤ := maxTokens * 4 - indicator.length
    if maxChars ≤ 0 then (indicator, true)
    else
      let truncated := text.take maxChars.toNat
      let lastSpace := jsLastIndexOfChar truncated ' '
      let truncated :=
        if (lastSpace : ℚ) > (maxChars : ℚ) * (8 / 10)
          then truncated.take lastSpace.toNat else truncated
      (truncated ++ indicator, true)

-- ============================================================================
-- Keyword extraction and relevance scoring (source: `extractKeywords`,
-- `scoreAncestor`, `formatAncestorForContext`, `scoreSibling`,
-- `formatSiblingForContext`)
-- ============================================================================

/-- The fixed stop-word list of `extractKeywords`. -/
def stopWords : List String :=
  ["the", "a", "an", "and", "or", "but", "in", "on", "at", "to", "for",
   "of", "with", "by", "from", "as", "is", "was", "are", "were", "been",
   "be", "have", "has", "had", "do", "does", "did", "will", "would", "could",
   "should", "may", "might", "must", "shall", "can", "need", "this", "that",
   "these", "those", "it", "its", "i", "you", "he", "she", "we", "they"]

/-- Keep the first occurrence of every element, tracking what was seen (a JS
`Set` built by insertion, viewed as its iteration order). -/
def dedupFirstAux (seen : List String) : List String → List String
  | [] => []
  | x :: xs => if seen.contains x then dedupFirstAux seen xs
      else x :: dedupFirstAux (x :: seen) xs

/-- Keep the first occurrence of every element. -/
def dedupFirst (l : List String) : List String := dedupFirstAux [] l

/-- Split a character list at every character matching `p` (the pieces, in
order, separators dropped). -/
def splitRun (p : Char → Bool) : List Char → List Char → List (List Char)
  | cur, [] => [cur.reverse]
  | cur, c :: rest => if p c then cur.reverse :: splitRun p [] rest
      else splitRun p (c :: cur) rest

/-- `extractKeywords`: lowercase, replace every character outside `a-z0-9`
and whitespace by a space, split on whitespace, keep words longer than two
characters that are not stop words; the resulting JS `Set` is the
first-occurrence deduplication. (Splitting at every whitespace character
instead of whitespace runs only adds empty fragments, which the length
filter removes.) -/
def extractKeywords (text : String) : List String :=
  let cleaned := (text.data.map Char.toLower).map (fun c =>
    if ('a' ≤ c ∧ c ≤ 'z') ∨ ('0' ≤ c ∧ c ≤ '9') ∨ isWsChar c then c else ' ')
  let words := ((splitRun isWsChar [] cleaned).map String.mk).filter
    (fun w => w.length > 2 ∧ ¬ stopWords.contains w)
  dedupFirst words

/-- JS `String.prototype.includes`. -/
def strContains (s pat : String) : Bool :=
  let rec go : List Char → Bool
    | [] => pat.data.isPrefixOf ([] : List Char)
    | c :: rest => pat.data.isPrefixOf (c :: rest) || go rest
  go s.data

/-- `scoreAncestor`: depth priority, recency decay over hours, status bonus,
results and artifacts bonuses (`currentFrame` is accepted and unused, as in
the source). -/
def scoreAncestor (now : Nat) (ancestor : FrameMetadata) (depth : Nat)
    (currentFrame : Option FrameMetadata) : ℚ :=
  let base : ℚ := if depth = 0 then 1000 else if depth = 1 then 500
    else jsMax 0 (100 - (depth : ℚ) * 20)
  let ageHours : ℚ := ((now : ℚ) - (ancestor.updatedAt : ℚ)) / (1000 * 60 * 60)
  let recency : ℚ := jsMax 0 (50 - ageHours)
  let statusBonus : ℚ := if ancestor.status = .in_progress then 30
    else if ancestor.status = .completed then 10 else 0
  let resultsBonus : ℚ := if jsTruthyStr ancestor.resultsCompacted then 20 else 0
  let artifactsBonus : ℚ := if ancestor.artifacts.length > 0 then 10 else 0
  base + recency + statusBonus + resultsBonus + artifactsBonus

/-- `formatAncestorForContext`: the text an ancestor is estimated from. -/
def formatAncestorForContext (ancestor : FrameMetadata) : String :=
  let content := ancestor.title ++ ": " ++ ancestor.successCriteriaCompacted
  let content := if jsTruthyStr ancestor.resultsCompacted
    then content ++ " " ++ ancestor.resultsCompacted.getD "" else content
  if ancestor.artifacts.length > 0
    then content ++ " " ++ String.intercalate ", " ancestor.artifacts
    else content

/-- `formatSiblingForContext` (same shape as the ancestor formatter). -/
def formatSiblingForContext (sibling : FrameMetadata) : String :=
  let content := sibling.title ++ ": " ++ sibling.successCriteriaCompacted
  let content := if jsTruthyStr sibling.resultsCompacted
    then content ++ " " ++ sibling.resultsCompacted.getD "" else content
  if sibling.artifacts.length > 0
    then content ++ " " ++ String.intercalate ", " sibling.artifacts
    else content

/-- `scoreSibling`: recency, keyword overlap against the current goal,
results/artifact bonuses, artifact-text overlap, status bonus. -/
def scoreSibling (now : Nat) (sibling : FrameMetadata)
    (currentCriteria : String) : ℚ :=
  let ageHours : ℚ := ((now : ℚ) - (sibling.updatedAt : ℚ)) / (1000 * 60 * 60)
  let recency : ℚ := jsMax 0 (100 - ageHours * 10)
  let currentWords := extractKeywords currentCriteria
  let siblingWords := extractKeywords
    (sibling.title ++ " " ++ sibling.successCriteriaCompacted)
  let resultsWords := if jsTruthyStr sibling.resultsCompacted
    then extractKeywords (sibling.resultsCompacted.getD "") else []
  let overlapScore : ℚ := currentWords.foldl (fun acc w =>
    acc + (if siblingWords.contains w then 20 else 0) +
      (if resultsWords.contains w then 10 else 0)) 0
  let resultsBonus : ℚ := if jsTruthyStr sibling.resultsCompacted then 30 else 0
  let artifactScore : ℚ :=
    if sibling.artifacts.length > 0 then
      let artifactText := (String.intercalate " " sibling.artifacts).toLower
      currentWords.foldl (fun acc w =>
        acc + (if strContains artifactText w then 25 else 0)) 15
    else 0
  let statusBonus : ℚ := if sibling.status = .completed then 20
    else if sibling.status = .failed then 15 else 0
  recency + overlapScore + resultsBonus + artifactScore + statusBonus

-- ============================================================================
-- Ancestor selection (source: `selectAncestors`)
-- ============================================================================

/-- A scored ancestor as built inside `selectAncestors` (`depth` is the index
in the parent-first ancestor list). -/
structure ScoredAncestor where
  ancestor : FrameMetadata
  depth : Nat
  score : ℚ
  estimatedTokens : Nat
deriving Repr

/-- Result of `selectAncestors`. -/
structure AncestorSelection where
  selected : List FrameMetadata
  truncatedCount : Nat
  tokensUsed : Nat
deriving DecidableEq, Repr

/-- One step of the greedy budget pass of `selectAncestors` (accumulator:
selected items, tokens used, truncated count). -/
def ancestorPickStep (budget : Nat) (acc : List ScoredAncestor × Nat × Nat)
    (item : ScoredAncestor) : List ScoredAncestor × Nat × Nat :=
  if acc.2.1 + item.estimatedTokens ≤ budget then
    (acc.1 ++ [item], acc.2.1 + item.estimatedTokens, acc.2.2)
  else (acc.1, acc.2.1, acc.2.2 + 1)

/-- The greedy budget pass of `selectAncestors`. -/
def greedyPickAncestors (budget : Nat) (sorted : List ScoredAncestor) :
    List ScoredAncestor × Nat × Nat :=
  sorted.foldl (ancestorPickStep budget) ([], 0, 0)

/-- The `ancestors.map((ancestor, depth) => ...)` scoring pass of
`selectAncestors`, written with the running index explicit. -/
def scoreAncestorsFrom (now : Nat) (currentFrame : Option FrameMetadata) :
    Nat → List FrameMetadata → List ScoredAncestor
  | _, [] => []
  | depth, a :: rest =>
      { ancestor := a, depth := depth,
        score := scoreAncestor now a depth currentFrame,
        estimatedTokens := estimateTokens (formatAncestorForContext a) } ::
      scoreAncestorsFrom now currentFrame (depth + 1) rest

/-- `selectAncestors`: score each ancestor, sort with the immediate parent
(depth 0, the head of the parent-first input) pinned first and the rest by
score descending (a stable JS sort with the source's comparator), greedily
select within the budget counting the overflow as truncated, and restore
root-first order (depth descending) for rendering. -/
def selectAncestors (now : Nat) (ancestors : List FrameMetadata) (budget : Nat)
    (currentFrame : Option FrameMetadata) : AncestorSelection :=
  if ancestors = [] then ⟨[], 0, 0⟩
  else
    let scored := scoreAncestorsFrom now currentFrame 0 ancestors
    let sorted := match scored with
      | [] => []
      | p :: rest => p :: stableSort (fun a b => decide (b.score ≤ a.score)) rest
    let pick := greedyPickAncestors budget sorted
    let restored := stableSort (fun a b => decide (b.depth ≤ a.depth)) pick.1
    ⟨restored.map (·.ancestor), pick.2.2, pick.2.1⟩

-- ============================================================================
-- Sibling selection (source: `selectSiblings`)
-- ============================================================================

/-- A scored sibling as built inside `selectSiblings`. -/
structure ScoredSibling where
  sibling : FrameMetadata
  score : ℚ
  estimatedTokens : Nat
deriving Repr

/-- Result of `selectSiblings`. -/
structure SiblingSelection where
  selected : List FrameMetadata
  filteredCount : Nat
  tokensUsed : Nat
deriving DecidableEq, Repr

/-- `selectSiblings`: score, drop siblings below the minimum relevance score,
sort by score descending, greedily select within the budget, and order the
selected siblings most-recent first. -/
def selectSiblings (now : Nat) (siblings : List FrameMetadata) (budget : Nat)
    (currentGoal : String) (minRelevanceScore : ℚ) : SiblingSelection :=
  if siblings = [] then ⟨[], 0, 0⟩
  else
    let scored := siblings.map (fun s =>
      ({ sibling := s, score := scoreSibling now s currentGoal,
         estimatedTokens := estimateTokens (formatSiblingForContext s) } :
        ScoredSibling))
    let relevant := scored.filter (fun item => minRelevanceScore ≤ item.score)
    let filteredByScore := scored.length - relevant.length
    let sorted := stableSort (fun a b => decide (b.score ≤ a.score)) relevant
    let pick := sorted.foldl (fun (acc : List FrameMetadata × Nat × Nat) item =>
      if acc.2.1 + item.estimatedTokens ≤ budget then
        (acc.1 ++ [item.sibling], acc.2.1 + item.estimatedTokens, acc.2.2)
      else (acc.1, acc.2.1, acc.2.2 + 1)) ([], 0, 0)
    let selected := stableSort
      (fun a b => decide (b.updatedAt ≤ a.updatedAt)) pick.1
    ⟨selected, filteredByScore + pick.2.2, pick.2.1⟩

-- ============================================================================
-- Agent autonomy: push heuristics (source: `AutonomyConfig`,
-- `DEFAULT_AUTONOMY_CONFIG`, `evaluatePushHeuristics`)
-- ============================================================================

/-- Autonomy level. -/
inductive AutonomyLevel
  | manual
  | suggest
  | auto
deriving DecidableEq, Repr

/-- Configuration for agent autonomy behavior. -/
structure AutonomyConfig where
  level : AutonomyLevel
  pushThreshold : ℤ
  popThreshold : ℤ
  suggestInContext : Bool
  enabledHeuristics : List String
deriving DecidableEq, Repr

/-- `DEFAULT_AUTONOMY_CONFIG`. -/
def DEFAULT_AUTONOMY_CONFIG : AutonomyConfig :=
  { level := .suggest, pushThreshold := 70, popThreshold := 80,
    suggestInContext := true,
    enabledHeuristics := ["failure_boundary", "context_switch", "complexity",
      "duration", "goal_completion", "stagnation", "context_overflow"] }

/-- The `context` argument of `evaluatePushHeuristics` (all fields optional,
defaulted inside the function as in the source). -/
structure PushContextArgs where
  recentMessages : Option Nat
  recentFileChanges : Option (List String)
  currentGoal : Option String
  potentialNewGoal : Option String
  errorCount : Option Nat
  tokenCount : Option Nat
deriving Repr

/-- Result of push heuristic evaluation. -/
structure PushHeuristicResult where
  shouldPush : Bool
  confidence : ℤ
  suggestedGoal : Option String
  primaryReason : String
  heuristicScores : List (String × ℚ)
  explanation : String
deriving DecidableEq, Repr

/-- JS `heuristic.replace('_', ' ')` (first occurrence only). -/
def heuristicDisplayName (s : String) : String :=
  let rec go : List Char → List Char
    | [] => []
    | c :: rest => if c = '_' then ' ' :: rest else c :: go rest
  String.mk (go s.data)

/-- One step of the primary-reason scan. -/
def primaryStep (acc : String × ℚ) (hs : String × ℚ) : String × ℚ :=
  if hs.2 > acc.2 then (heuristicDisplayName hs.1, hs.2) else acc

/-- The primary-reason scan: the first strictly-maximal positive score wins,
starting from `("No strong signals", 0)`. -/
def primaryReasonOf (scores : List (String × ℚ)) : String × ℚ :=
  scores.foldl primaryStep ("No strong signals", 0)

/-- The heuristic-score accumulation of `evaluatePushHeuristics` (the four
`if (config.enabledHeuristics.includes(...))` blocks, in source order).
`state` stands for the aggregate `manager.getFrame` reads from. -/
def pushHeuristicScores (cfg : AutonomyConfig) (state : StackState)
    (sessionID : String) (ctx : PushContextArgs) : List (String × ℚ) :=
  let frame := alGet state.frames sessionID
  let recentMessages := jsOrNat ctx.recentMessages 0
  let recentFileChanges := ctx.recentFileChanges.getD []
  let currentGoal := jsOrStr ctx.currentGoal
    (jsOrStr (frame.map FrameMetadata.title) "")
  let potentialNewGoal := jsOrStr ctx.potentialNewGoal ""
  let errorCount := jsOrNat ctx.errorCount 0
  let tokenCount := jsOrNat ctx.tokenCount 0
  let scores0 : List (String × ℚ) := []
  let scores1 :=
    if cfg.enabledHeuristics.contains "failure_boundary" then
      let s1 : ℚ := if errorCount > 0 then jsMin 50 ((errorCount : ℚ) * 15) else 0
      let s2 : ℚ := if potentialNewGoal ≠ "" ∧ potentialNewGoal ≠ currentGoal
        then 30 else 0
      scores0 ++ [("failure_boundary", s1 + s2)]
    else scores0
  let scores2 :=
    if cfg.enabledHeuristics.contains "context_switch" then
      let keywordScore : ℚ :=
        if potentialNewGoal ≠ "" ∧ currentGoal ≠ "" then
          let currentKeywords := extractKeywords currentGoal
          let newKeywords := extractKeywords potentialNewGoal
          let overlap := (newKeywords.filter
            (fun w => currentKeywords.contains w)).length
          let overlapShare : ℚ := if currentKeywords.length > 0
            then (overlap : ℚ) / (currentKeywords.length : ℚ) else 0
          (jsRound ((1 - overlapShare) * 60) : ℚ)
        else 0
      let fileBonus : ℚ := if recentFileChanges.length > 3 then 20
        else if recentFileChanges.length > 1 then 10 else 0
      scores1 ++ [("context_switch", keywordScore + fileBonus)]
    else scores1
  let scores3 :=
    if cfg.enabledHeuristics.contains "complexity" then
      let msgScore : ℚ := if recentMessages > 20 then 40
        else if recentMessages > 10 then 25
        else if recentMessages > 5 then 10 else 0
      let fileScore : ℚ := if recentFileChanges.length > 5 then 30
        else if recentFileChanges.length > 2 then 15 else 0
      scores2 ++ [("complexity", msgScore + fileScore)]
    else scores2
  if cfg.enabledHeuristics.contains "duration" then
    let durationScore : ℚ := if tokenCount > 50000 then 70
      else if tokenCount > 30000 then 50
      else if tokenCount > 15000 then 30
      else if tokenCount > 5000 then 15 else 0
    scores3 ++ [("duration", durationScore)]
  else scores3

/-- The overall confidence: the rounded average of the enabled heuristics'
scores, 0 when none are enabled. -/
def pushConfidence (scores : List (String × ℚ)) : ℤ :=
  if scores.length > 0
    then jsRound ((scores.map Prod.snd).sum / (scores.length : ℚ)) else 0

/-- `evaluatePushHeuristics`: evaluates the enabled heuristics
(failure-boundary, context-switch, complexity, duration), averages their
scores into an overall confidence (`Math.round`), recommends a push when the
confidence reaches the push threshold, and reports the top-scoring heuristic
as the primary reason. `state` stands for the aggregate `manager.getFrame`
reads from. -/
def evaluatePushHeuristics (cfg : AutonomyConfig) (state : StackState)
    (sessionID : String) (ctx : PushContextArgs) : PushHeuristicResult :=
  let potentialNewGoal := jsOrStr ctx.potentialNewGoal ""
  let scores := pushHeuristicScores cfg state sessionID ctx
  let confidence : ℤ := pushConfidence scores
  let shouldPush := cfg.pushThreshold ≤ confidence
  let primaryReason := (primaryReasonOf scores).1
  let explanation :=
    "Push evaluation for session " ++ sessionID.take 8 ++ ":\n" ++
    "- Confidence: " ++ toString confidence ++ "% (threshold: " ++
      toString cfg.pushThreshold ++ "%)\n" ++
    "- Recommendation: " ++ (if shouldPush then "PUSH" else "NO PUSH") ++ "\n" ++
    "- Primary reason: " ++ primaryReason ++ "\n" ++
    "- Heuristic scores:\n" ++
    scores.foldl (fun acc hs =>
      acc ++ "  - " ++ hs.1 ++ ": " ++ toString hs.2 ++ "\n") ""
  { shouldPush := shouldPush
    confidence := confidence
    suggestedGoal := if potentialNewGoal ≠ "" then some potentialNewGoal
      else none
    primaryReason := primaryReason
    heuristicScores := scores
    explanation := explanation }

-- ============================================================================
-- Idle/Subagent tracker: frame creation call sites (source:
-- `maybeCreateSubagentFrame` and the `session.created` event hook)
-- ============================================================================

/-- A tracked subagent session (the fields the frame-creation paths read). -/
structure SubagentSession where
  sessionID : String
  parentSessionID : String
  title : String
  createdAt : Nat
  lastActivityAt : Nat
  isSubagent : Bool
  hasFrame : Bool
  messageCount : Nat
  isIdle : Bool
  isCompleted : Bool
deriving DecidableEq, Repr

/-- The frame-creating call shared by `maybeCreateSubagentFrame`
(`manager.createFrame(session.sessionID, session.title || 'Subagent task',
session.parentSessionID)`) and the `session.created` hook
(`manager.createFrame(info.id, goal, info.parentID)`).

Both sites pass THREE arguments to the five-parameter
`createFrame(sessionID, title, successCriteria, successCriteriaCompacted,
parentSessionID?)`: positionally the parent session id lands in
`successCriteria`, while `successCriteriaCompacted` and `parentSessionID`
receive `undefined` (the `undefined` criteria text is modelled as `""`,
irrelevant to the tree shape). -/
def subagentCreateFrameCall (state : StackState) (now : Nat)
    (sessionID title parentID : String) : StackState × FrameMetadata :=
  createFrame state now sessionID title parentID "" none

/-- `meetsFrameHeuristics`: minimum duration and message count. -/
def meetsFrameHeuristics (now minDuration minMessageCount : Nat)
    (session : SubagentSession) : Bool :=
  ¬ (now - session.createdAt < minDuration) ∧
  ¬ (session.messageCount < minMessageCount)

/-- `maybeCreateSubagentFrame`: creates a frame for a tracked subagent
session that meets the heuristics and has none yet (returning the updated
aggregate paired with whether a frame was created). -/
def maybeCreateSubagentFrame (state : StackState) (now : Nat)
    (minDuration minMessageCount : Nat) (session : SubagentSession) :
    StackState × Bool :=
  if session.hasFrame then (state, false)
  else if ¬ meetsFrameHeuristics now minDuration minMessageCount session then
    (state, false)
  else
    ((subagentCreateFrameCall state now session.sessionID
      (jsOrStr (some session.title) "Subagent task")
      session.parentSessionID).1, true)

-- ============================================================================
-- Context caching (source: `CacheEntry`, `generateStateHash`, `isCacheValid`,
-- `cacheContext`, `invalidateCache`)
-- ============================================================================

/-- Context cache entry. -/
structure CacheEntry where
  context : String
  createdAt : Nat
  sessionID : String
  stateHash : String
  tokenCount : Nat
deriving DecidableEq, Repr

/-- `generateStateHash`: hash of the inputs that produced a context. -/
def generateStateHash (frame : Option FrameMetadata)
    (ancestors siblings plannedChildren : List FrameMetadata) : String :=
  let parts : List String :=
    [jsOrStr (frame.map FrameMetadata.sessionID) "none",
     jsOrStr (frame.map (fun f => statusText f.status)) "none",
     jsOrStr (frame.map (fun f => toString f.updatedAt)) "0",
     jsOrStr (frame.bind (fun f => f.resultsCompacted.map
       (fun r => toString r.length))) "0",
     toString ancestors.length,
     String.intercalate "," (ancestors.map (fun a =>
       a.sessionID ++ ":" ++ statusText a.status ++ ":" ++ toString a.updatedAt)),
     toString siblings.length,
     String.intercalate "," (siblings.map (fun s =>
       s.sessionID ++ ":" ++ statusText s.status ++ ":" ++ toString s.updatedAt)),
     toString plannedChildren.length,
     String.intercalate "," (plannedChildren.map (fun c =>
       c.sessionID ++ ":" ++ c.title))]
  String.intercalate "|" parts

/-- `isCacheValid`: the entry exists, its age is within the TTL, and its
stored hash matches the current state hash. -/
def isCacheValid (entry : Option CacheEntry) (now cacheTTL : Nat)
    (stateHash : String) : Bool :=
  match entry with
  | none => false
  | some e =>
      if now - e.createdAt > cacheTTL then false
      else e.stateHash = stateHash

/-- `cacheContext`: store the rendered context; once more than 50 entries
exist, evict the oldest down to the newest 25 (stable ascending sort by
creation time, deleting the listed keys). -/
def cacheContext (cache : JMap CacheEntry) (now : Nat)
    (sessionID context stateHash : String) (tokenCount : Nat) :
    JMap CacheEntry :=
  let entry : CacheEntry :=
    { context := context, createdAt := now, sessionID := sessionID,
      stateHash := stateHash, tokenCount := tokenCount }
  let cache1 := alSet cache sessionID entry
  if cache1.length > 50 then
    let entries := stableSort
      (fun a b => decide (a.2.createdAt ≤ b.2.createdAt)) cache1
    let toDelete := entries.take (entries.length - 25)
    toDelete.foldl (fun m p => alErase m p.1) cache1
  else cache1

/-- `invalidateCache`: drop one session's entry. -/
def invalidateCache (cache : JMap CacheEntry) (sessionID : String) :
    JMap CacheEntry :=
  alErase cache sessionID

-- ============================================================================
-- Tree queries used by context assembly (source: `getAncestors`,
-- `getCompletedSiblings`, `getAllSiblings`, the planned-children collection
-- loop of `generateFrameContextWithMetadata`)
-- ============================================================================

/-- The parent-chasing loop of `getAncestors`, fuel-bounded (the fuel
`frames.length` suffices on the acyclic trees the store maintains). -/
def ancestorChain (frames : JMap FrameMetadata) :
    Nat → FrameMetadata → List FrameMetadata
  | 0, _ => []
  | fuel + 1, cur =>
      match cur.parentSessionID with
      | none => []
      | some pid =>
          match alGet frames pid with
          | none => []
          | some parent => parent :: ancestorChain frames fuel parent

/-- `FrameStateManager.getAncestors`: immediate parent first, root last. -/
def getAncestors (frames : JMap FrameMetadata) (sessionID : String) :
    List FrameMetadata :=
  match alGet frames sessionID with
  | none => []
  | some cur => ancestorChain frames frames.length cur

/-- `FrameStateManager.getCompletedSiblings`. -/
def getCompletedSiblings (frames : JMap FrameMetadata) (sessionID : String) :
    List FrameMetadata :=
  match alGet frames sessionID with
  | none => []
  | some frame =>
      (alValues frames).filter (fun f =>
        f.parentSessionID = frame.parentSessionID ∧
        f.sessionID ≠ sessionID ∧ f.status = .completed)

/-- `FrameStateManager.getAllSiblings`. -/
def getAllSiblings (frames : JMap FrameMetadata) (sessionID : String) :
    List FrameMetadata :=
  match alGet frames sessionID with
  | none => []
  | some frame =>
      (alValues frames).filter (fun f =>
        f.parentSessionID = frame.parentSessionID ∧ f.sessionID ≠ sessionID)

/-- The planned-children collection loop of
`generateFrameContextWithMetadata`: resolve each listed id and keep the ones
still `planned`. -/
def collectPlannedChildren (frames : JMap FrameMetadata)
    (frame : FrameMetadata) : List FrameMetadata :=
  (frame.plannedChildren.getD []).foldl (fun acc cid =>
    match alGet frames cid with
    | some child => if child.status = .planned then acc ++ [child] else acc
    | none => acc) []

-- ============================================================================
-- Sibling ordering (source: `SiblingOrderInfo`, `calculateSiblingOrder`)
-- ============================================================================

/-- Sibling ordering information for stack discipline guidance. -/
structure SiblingOrderInfo where
  position : ℤ
  total : Nat
  completedCount : Nat
  inProgressCount : Nat
  pendingCount : Nat
  nextPending : Option FrameMetadata
  hasOtherInProgress : Bool
deriving DecidableEq, Repr

/-- `calculateSiblingOrder`: order current frame and siblings by creation
time, locate the current frame's 1-indexed position, count sibling statuses,
and find the next pending sibling (after the current position, else the
first pending anywhere). -/
def calculateSiblingOrder (currentFrame : FrameMetadata)
    (allSiblings : List FrameMetadata) : SiblingOrderInfo :=
  let allWithCurrent := stableSort
    (fun a b => decide (a.createdAt ≤ b.createdAt))
    (allSiblings ++ [currentFrame])
  let position := jsFindIndex
    (fun f => f.sessionID = currentFrame.sessionID) allWithCurrent + 1
  let total := allWithCurrent.length
  let counts := allWithCurrent.foldl
    (fun (acc : Nat × Nat × Nat × Option FrameMetadata × Bool) sibling =>
      if sibling.sessionID = currentFrame.sessionID then acc
      else if sibling.status = .completed then
        (acc.1 + 1, acc.2.1, acc.2.2.1, acc.2.2.2.1, acc.2.2.2.2)
      else if sibling.status = .in_progress then
        (acc.1, acc.2.1 + 1, acc.2.2.1, acc.2.2.2.1, true)
      else if sibling.status = .planned then
        let nextPending :=
          match acc.2.2.2.1 with
          | some np => some np
          | none =>
              let siblingPos := jsFindIndex
                (fun f => f.sessionID = sibling.sessionID) allWithCurrent + 1
              if siblingPos > position then some sibling else none
        (acc.1, acc.2.1, acc.2.2.1 + 1, nextPending, acc.2.2.2.2)
      else acc)
    (0, 0, 0, none, false)
  let nextPending :=
    match counts.2.2.2.1 with
    | some np => some np
    | none => allWithCurrent.find? (fun sibling =>
        sibling.status = .planned ∧ sibling.sessionID ≠ currentFrame.sessionID)
  { position := position, total := total, completedCount := counts.1,
    inProgressCount := counts.2.1, pendingCount := counts.2.2.1,
    nextPending := nextPending, hasOtherInProgress := counts.2.2.2.2 }

-- ============================================================================
-- Context rendering (source: `escapeXml`, `formatFrameXml`,
-- `formatCurrentFrameXml`, `buildWorkflowGuidance`, `buildContextXml`,
-- `ContextMetadata`, `createEmptyMetadata`)
-- ============================================================================

/-- `escapeXml`: sequential global replacement of the five reserved markup
characters (the apostrophe is written `\x27`). -/
def escapeXml (text : String) : String :=
  ((((text.replace "&" "&amp;").replace "<" "&lt;").replace ">" "&gt;").replace
    "\"" "&quot;").replace "\x27" "&apos;"

/-- Context generation metadata. -/
structure ContextMetadata where
  totalTokens : Nat
  ancestorTokens : Nat
  siblingTokens : Nat
  currentTokens : Nat
  ancestorCount : Nat
  ancestorsTruncated : Nat
  siblingCount : Nat
  siblingsFiltered : Nat
  wasTruncated : Bool
  cacheHit : Bool
deriving DecidableEq, Repr

/-- `createEmptyMetadata`. -/
def createEmptyMetadata : ContextMetadata :=
  { totalTokens := 0, ancestorTokens := 0, siblingTokens := 0,
    currentTokens := 0, ancestorCount := 0, ancestorsTruncated := 0,
    siblingCount := 0, siblingsFiltered := 0, wasTruncated := false,
    cacheHit := false }

/-- `formatFrameXml`: ancestor/sibling frame rendered with compacted fields,
results truncated to 70% of the per-frame share. -/
def formatFrameXml (frame : FrameMetadata) (indent : String)
    (tokenBudgetPerFrame : ℚ) : String :=
  let xml := indent ++ "<frame id=\"" ++ frame.sessionID.take 8 ++
    "\" status=\"" ++ statusText frame.status ++ "\">\n" ++
    indent ++ "  <title>" ++ escapeXml frame.title ++ "</title>\n" ++
    indent ++ "  <criteria>" ++ escapeXml frame.successCriteriaCompacted ++
    "</criteria>\n"
  let xml :=
    if jsTruthyStr frame.resultsCompacted then
      let resultsBudget : ℤ := ⌊tokenBudgetPerFrame * (7 / 10)⌋
      let truncated := truncateToTokenBudget (frame.resultsCompacted.getD "")
        resultsBudget " [truncated]"
      xml ++ indent ++ "  <results" ++
        (if truncated.2 then " truncated=\"true\"" else "") ++ ">" ++
        escapeXml truncated.1 ++ "</results>\n"
    else xml
  let xml :=
    if frame.artifacts.length > 0 then
      xml ++ indent ++ "  <artifacts>" ++
        escapeXml (String.intercalate ", " frame.artifacts) ++ "</artifacts>\n"
    else xml
  let xml :=
    if jsTruthyStr frame.logPath then
      xml ++ indent ++ "  <log>" ++ escapeXml (frame.logPath.getD "") ++
        "</log>\n"
    else xml
  xml ++ indent ++ "</frame>\n"

/-- `formatCurrentFrameXml`: the current frame with full (uncompacted)
criteria, artifacts, decisions (truncated to half the current-frame budget)
and the planned-children section. -/
def formatCurrentFrameXml (frame : FrameMetadata) (indent : String)
    (tokenBudget : Nat) (plannedChildren : List FrameMetadata) :
    String × Bool :=
  let xml := indent ++ "<current-frame id=\"" ++ frame.sessionID.take 8 ++
    "\" status=\"" ++ statusText frame.status ++ "\">\n" ++
    indent ++ "  <title>" ++ escapeXml frame.title ++ "</title>\n" ++
    indent ++ "  <success-criteria>" ++ escapeXml frame.successCriteria ++
    "</success-criteria>\n"
  let xml :=
    if frame.artifacts.length > 0 then
      xml ++ indent ++ "  <artifacts>" ++
        escapeXml (String.intercalate ", " frame.artifacts) ++ "</artifacts>\n"
    else xml
  let step2 :=
    if frame.decisions.length > 0 then
      let decisionsText := String.intercalate "; " frame.decisions
      let decisionsBudget : ℤ := ⌊(tokenBudget : ℚ) * (1 / 2)⌋
      let truncated := truncateToTokenBudget decisionsText decisionsBudget
        " [more decisions omitted]"
      (xml ++ indent ++ "  <decisions" ++
        (if truncated.2 then " truncated=\"true\"" else "") ++ ">" ++
        escapeXml truncated.1 ++ "</decisions>\n", truncated.2)
    else (xml, false)
  let xml :=
    if plannedChildren.length > 0 then
      step2.1 ++ indent ++ "  <planned-children count=\"" ++
        toString plannedChildren.length ++ "\">\n" ++
        plannedChildren.foldl (fun acc child =>
          acc ++ indent ++ "    <planned-task id=\"" ++
            child.sessionID.take 8 ++ "\">\n" ++
          indent ++ "      <title>" ++ escapeXml child.title ++ "</title>\n" ++
          indent ++ "      <criteria>" ++
            escapeXml child.successCriteriaCompacted ++ "</criteria>\n" ++
          indent ++ "    </planned-task>\n") "" ++
        indent ++ "  </planned-children>\n"
    else step2.1
  (xml ++ indent ++ "</current-frame>\n", step2.2)

/-- `buildWorkflowGuidance`: the workflow/task-management guidance section
rendered at the top of the context (apostrophes in the source text are
written `\x27`, braces `\x7b`/`\x7d`). -/
def buildWorkflowGuidance (frame : FrameMetadata)
    (plannedChildren : List FrameMetadata)
    (siblingOrderInfo : SiblingOrderInfo) : String :=
  let isRootFrame := ¬ jsTruthyStr frame.parentSessionID
  let isUnplannedRoot := isRootFrame ∧ plannedChildren.length = 0
  let isAutoCreatedFrame := strContains frame.successCriteria "Auto-created"
  let xml :=
    "  <stack-task-management>\n" ++
    "    <philosophy>\n" ++
    "      STACK TOOLS ARE YOUR PRIMARY TASK MANAGEMENT SYSTEM.\n" ++
    "      Do NOT use TodoWrite. Use stack_frame_push/stack_frame_pop/stack_frame_plan instead.\n" ++
    "      Every significant unit of work should be a frame with clear success criteria.\n" ++
    "    </philosophy>\n\n"
  let xml :=
    if isUnplannedRoot ∨ isAutoCreatedFrame then
      xml ++
      "    <initial-planning priority=\"HIGH\">\n" ++
      "      THIS IS A NEW SESSION. Before writing any code:\n" ++
      "      1. Analyze the task complexity\n" ++
      "      2. If the task has multiple components/features, use stack_frame_plan to break it down\n" ++
      "      3. Each child frame should have specific, verifiable success criteria\n" ++
      "      4. Then use stack_frame_activate to start the first child task\n" ++
      "      \n" ++
      "      Example for a complex task:\n" ++
      "        stack_frame_plan with children: [\n" ++
      "          \x7b title: \"Feature A\", successCriteria: \"...\", successCriteriaCompacted: \"...\" \x7d,\n" ++
      "          \x7b title: \"Feature B\", successCriteria: \"...\", successCriteriaCompacted: \"...\" \x7d\n" ++
      "        ]\n" ++
      "    </initial-planning>\n\n"
    else xml
  let xml := xml ++
    "    <when-to-create-child-frames>\n" ++
    "      CREATE a new child frame (stack_frame_push) when you encounter:\n" ++
    "      - A subtask that has its own distinct success criteria\n" ++
    "      - Work that could be done independently or in parallel\n" ++
    "      - Multiple approaches to try (each approach = separate frame)\n" ++
    "      - Separable concerns (e.g., implement feature vs write tests)\n" ++
    "      - Context switches (different files, different subsystems)\n" ++
    "      - Complexity that exceeds what fits in current frame\x27s scope\n" ++
    "      - Any task that would benefit from its own summary when complete\n" ++
    "      \n" ++
    "      DO NOT cram everything into one frame. Decompose aggressively.\n" ++
    "      Frames are cheap. Context loss from poor organization is expensive.\n" ++
    "    </when-to-create-child-frames>\n\n"
  let xml := xml ++
    "    <current-frame>\n" ++
    "      <title>" ++ escapeXml frame.title ++ "</title>\n" ++
    "      <success-criteria>" ++ escapeXml frame.successCriteria ++
      "</success-criteria>\n" ++
    "      <status>" ++ statusText frame.status ++ "</status>\n" ++
    "    </current-frame>\n\n"
  let xml :=
    if siblingOrderInfo.total > 1 then
      let xml := xml ++
        "    <position>Task " ++ toString siblingOrderInfo.position ++
          " of " ++ toString siblingOrderInfo.total ++ "</position>\n" ++
        "    <sibling-status completed=\"" ++
          toString siblingOrderInfo.completedCount ++ "\" in-progress=\"" ++
          toString (siblingOrderInfo.inProgressCount + 1) ++ "\" pending=\"" ++
          toString siblingOrderInfo.pendingCount ++ "\" />\n"
      if siblingOrderInfo.hasOtherInProgress then
        xml ++ "    <warning>STACK DISCIPLINE VIOLATION: " ++
          toString siblingOrderInfo.inProgressCount ++
          " other sibling(s) are in_progress. Complete or pop them before starting new work.</warning>\n"
      else xml
    else xml
  let xml :=
    match plannedChildren with
    | firstChild :: _ =>
        xml ++
        "    <next-action>Complete current task, then activate first planned child</next-action>\n" ++
        "    <first-child title=\"" ++ escapeXml firstChild.title ++
          "\" id=\"" ++ firstChild.sessionID.take 12 ++ "\" />\n"
    | [] =>
        match siblingOrderInfo.nextPending with
        | some nextPending =>
            xml ++
            "    <next-action>Complete current task with stack_frame_pop, then activate next sibling</next-action>\n" ++
            "    <next-sibling title=\"" ++ escapeXml nextPending.title ++
              "\" id=\"" ++ nextPending.sessionID.take 12 ++ "\" />\n"
        | none =>
            if isRootFrame then
              xml ++
              "    <next-action>Either: (1) Plan subtasks with stack_frame_plan, OR (2) Complete this task with stack_frame_pop</next-action>\n"
            else
              xml ++
              "    <next-action>Complete current task with stack_frame_pop to return to parent</next-action>\n"
  xml ++
    "    <rules>\n" ++
    "      <rule>COMPLETE your current frame\x27s success criteria before starting siblings</rule>\n" ++
    "      <rule>Call stack_frame_pop with results/resultsCompacted when done</rule>\n" ++
    "      <rule>Work DEPTH-FIRST: finish children before moving to siblings</rule>\n" ++
    "      <rule>CREATE child frames for any significant sub-work (don\x27t cram)</rule>\n" ++
    "      <rule>NEVER use TodoWrite - stack tools replace it entirely</rule>\n" ++
    "    </rules>\n" ++
    "  </stack-task-management>\n"

/-- Result of `buildContextXml`. -/
structure BuiltContext where
  xml : String
  currentTokens : Nat
  wasTruncated : Bool
deriving DecidableEq, Repr

/-- `buildContextXml`: guidance, metadata block, selected ancestors
(root-first), selected completed siblings, and the current frame. -/
def buildContextXml (sessionID : String) (frame : FrameMetadata)
    (ancestors siblings : List FrameMetadata)
    (ancestorsTruncated siblingsFiltered : Nat) (budget : TokenBudget)
    (plannedChildren : List FrameMetadata)
    (siblingOrderInfo : SiblingOrderInfo) : BuiltContext :=
  let xml := "<stack-context session=\"" ++ sessionID ++ "\">\n" ++
    buildWorkflowGuidance frame plannedChildren siblingOrderInfo ++
    "  <metadata>\n" ++
    "    <budget total=\"" ++ toString budget.total ++ "\" ancestors=\"" ++
      toString budget.ancestors ++ "\" siblings=\"" ++
      toString budget.siblings ++ "\" current=\"" ++
      toString budget.current ++ "\" />\n"
  let truncationShown := ancestorsTruncated > 0 ∨ siblingsFiltered > 0
  let xml :=
    if truncationShown then
      xml ++ "    <truncation ancestors-omitted=\"" ++
        toString ancestorsTruncated ++ "\" siblings-filtered=\"" ++
        toString siblingsFiltered ++ "\" />\n"
    else xml
  let xml := xml ++ "  </metadata>\n"
  let xml :=
    if ancestors.length > 0 then
      xml ++ "  <ancestors count=\"" ++ toString ancestors.length ++ "\"" ++
        (if ancestorsTruncated > 0 then
          " omitted=\"" ++ toString ancestorsTruncated ++ "\"" else "") ++
        ">\n" ++
        ancestors.foldl (fun acc ancestor =>
          acc ++ formatFrameXml ancestor "    "
            ((budget.ancestors : ℚ) / (max ancestors.length 1 : ℚ))) "" ++
        "  </ancestors>\n"
    else xml
  let xml :=
    if siblings.length > 0 then
      xml ++ "  <completed-siblings count=\"" ++
        toString siblings.length ++ "\"" ++
        (if siblingsFiltered > 0 then
          " filtered=\"" ++ toString siblingsFiltered ++ "\"" else "") ++
        ">\n" ++
        siblings.foldl (fun acc sibling =>
          acc ++ formatFrameXml sibling "    "
            ((budget.siblings : ℚ) / (max siblings.length 1 : ℚ))) "" ++
        "  </completed-siblings>\n"
    else xml
  let currentFrameXml := formatCurrentFrameXml frame "  " budget.current
    plannedChildren
  let xml := xml ++ currentFrameXml.1 ++ "</stack-context>"
  { xml := xml, currentTokens := estimateTokens currentFrameXml.1,
    wasTruncated := truncationShown ∨ currentFrameXml.2 }

-- ============================================================================
-- Context generation (source: `generateFrameContextWithMetadata`)
-- ============================================================================

/-- Result of context generation including metadata. -/
structure ContextGenResult where
  context : String
  metadata : ContextMetadata
  cacheHit : Bool
deriving DecidableEq, Repr

/-- The cache-miss path of `generateFrameContextWithMetadata`: select
ancestors and siblings within the budget, build the document and the
assembly metadata (a pure function of the aggregate snapshot, the budget and
the clock). -/
def renderFrameContext (state : StackState) (budget : TokenBudget) (now : Nat)
    (sessionID : String) (frame : FrameMetadata) : String × ContextMetadata :=
  let allAncestors := getAncestors state.frames sessionID
  let completedSiblings := getCompletedSiblings state.frames sessionID
  let allSiblings := getAllSiblings state.frames sessionID
  let siblingOrderInfo := calculateSiblingOrder frame allSiblings
  let plannedChildren := collectPlannedChildren state.frames frame
  let ancestorSelection := selectAncestors now allAncestors budget.ancestors
    (some frame)
  let siblingSelection := selectSiblings now completedSiblings budget.siblings
    (frame.title ++ " " ++ frame.successCriteria) 30
  let built := buildContextXml sessionID frame ancestorSelection.selected
    siblingSelection.selected ancestorSelection.truncatedCount
    siblingSelection.filteredCount budget plannedChildren siblingOrderInfo
  let totalTokens := ancestorSelection.tokensUsed +
    siblingSelection.tokensUsed + built.currentTokens + budget.overhead
  (built.xml,
   { totalTokens := totalTokens,
     ancestorTokens := ancestorSelection.tokensUsed,
     siblingTokens := siblingSelection.tokensUsed,
     currentTokens := built.currentTokens,
     ancestorCount := ancestorSelection.selected.length,
     ancestorsTruncated := ancestorSelection.truncatedCount,
     siblingCount := siblingSelection.selected.length,
     siblingsFiltered := siblingSelection.filteredCount,
     wasTruncated := built.wasTruncated,
     cacheHit := false })

/-- The content hash `generateFrameContextWithMetadata` computes for a
frame in a given aggregate. -/
def stateHashFor (state : StackState) (sessionID : String)
    (frame : FrameMetadata) : String :=
  generateStateHash (some frame) (getAncestors state.frames sessionID)
    (getAllSiblings state.frames sessionID)
    (collectPlannedChildren state.frames frame)

/-- `generateFrameContextWithMetadata`: compute the state hash, consult the
cache (hit: return the stored document flagged as a cache hit; miss: render,
store, return), threading the context cache explicitly. -/
def generateFrameContextWithMetadata (state : StackState)
    (cache : JMap CacheEntry) (budget : TokenBudget) (cacheTTL now : Nat)
    (sessionID : String) : ContextGenResult × JMap CacheEntry :=
  match alGet state.frames sessionID with
  | none => (⟨"", createEmptyMetadata, false⟩, cache)
  | some frame =>
      let stateHash := stateHashFor state sessionID frame
      let cachedEntry := alGet cache sessionID
      match cachedEntry with
      | some entry =>
          if isCacheValid (some entry) now cacheTTL stateHash then
            (⟨entry.context,
              { createEmptyMetadata with
                  totalTokens := entry.tokenCount, cacheHit := true },
              true⟩, cache)
          else
            let rendered := renderFrameContext state budget now sessionID frame
            (⟨rendered.1, rendered.2, false⟩,
             cacheContext cache now sessionID rendered.1 stateHash
               rendered.2.totalTokens)
      | none =>
          let rendered := renderFrameContext state budget now sessionID frame
          (⟨rendered.1, rendered.2, false⟩,
           cacheContext cache now sessionID rendered.1 stateHash
             rendered.2.totalTokens)

-- ============================================================================
-- Concrete aggregates used to instantiate the theorems
-- ============================================================================

/-- A frame record with the given identity, parent and status and neutral
remaining fields. -/
def sampleFrame (id : String) (parent : Option String) (st : FrameStatus) :
    FrameMetadata :=
  { sessionID := id, parentSessionID := parent, status := st,
    title := "t-" ++ id, successCriteria := "sc-" ++ id,
    successCriteriaCompacted := "scc-" ++ id, results := none,
    resultsCompacted := none, createdAt := 0, updatedAt := 0, artifacts := [],
    decisions := [], logPath := none, invalidationReason := none,
    invalidatedAt := none, plannedChildren := none }

/-- Aggregate for the invalidation-cascade scenario: root `r`, its child `a`
(active), and `a`'s children `p1` (planned), `i1` (in progress) and `c1`
(completed). -/
def cascadeSampleState : StackState :=
  { version := 1,
    frames := [("r", sampleFrame "r" none .in_progress),
               ("a", sampleFrame "a" (some "r") .in_progress),
               ("p1", sampleFrame "p1" (some "a") .planned),
               ("i1", sampleFrame "i1" (some "a") .in_progress),
               ("c1", sampleFrame "c1" (some "a") .completed)],
    activeFrameID := some "a", rootFrameIDs := ["r"], updatedAt := 0 }

/-- An already-invalidated frame `f` (reason `r1`, invalidated at 1) with an
already-invalidated child `g`, for the idempotence claim. -/
def invalidatedSampleFrame : FrameMetadata :=
  { sampleFrame "f" (some "r") .invalidated with
      invalidationReason := some "r1", invalidatedAt := some 1 }

/-- Aggregate holding `invalidatedSampleFrame` and its already-invalidated
child. -/
def invalidatedSampleState : StackState :=
  { version := 1,
    frames := [("r", sampleFrame "r" none .in_progress),
               ("f", invalidatedSampleFrame),
               ("g", { sampleFrame "g" (some "f") .invalidated with
                   invalidationReason := some "Parent frame invalidated: r1",
                   invalidatedAt := some 1 })],
    activeFrameID := some "r", rootFrameIDs := ["r"], updatedAt := 0 }

/-- A completed frame `d` (child of `r`) whose results are `orig`, for the
re-completion claim. -/
def completedSampleFrame : FrameMetadata :=
  { sampleFrame "d" (some "r") .completed with
      results := some "orig", resultsCompacted := some "orig-rc" }

/-- Aggregate holding `completedSampleFrame` under root `r`. -/
def completedSampleState : StackState :=
  { version := 1,
    frames := [("r", sampleFrame "r" none .in_progress),
               ("d", completedSampleFrame)],
    activeFrameID := some "r", rootFrameIDs := ["r"], updatedAt := 0 }

/-- Aggregate with a single in-progress root frame `r`. -/
def rootOnlySampleState : StackState :=
  { version := 1, frames := [("r", sampleFrame "r" none .in_progress)],
    activeFrameID := some "r", rootFrameIDs := ["r"], updatedAt := 0 }

/-- Aggregate for the identity-replacement scenario: parent `par` whose
`plannedChildren` lists `old`, the frame `old` itself (planned, active), and
`old`'s child `ch`. -/
def replaceSampleState : StackState :=
  { version := 1,
    frames := [("par", { sampleFrame "par" none .in_progress with
                   plannedChildren := some ["old"] }),
               ("old", { sampleFrame "old" (some "par") .planned with
                   plannedChildren := some ["ch"] }),
               ("ch", sampleFrame "ch" (some "old") .planned)],
    activeFrameID := some "old", rootFrameIDs := ["par"], updatedAt := 0 }

/-- Aggregate with one root frame `f` for the cache scenario. -/
def cacheSampleState : StackState :=
  { version := 1, frames := [("f", sampleFrame "f" none .in_progress)],
    activeFrameID := some "f", rootFrameIDs := ["f"], updatedAt := 0 }

/-- A cache entry whose stored hash does not match any real state hash. -/
def bogusCacheEntry : CacheEntry :=
  { context := "stale document", createdAt := 0, sessionID := "f",
    stateHash := "bogus", tokenCount := 3 }

/-- An ancestor whose formatted text (7 estimated tokens) exceeds a small
ancestors budget. -/
def oversizedParent : FrameMetadata := sampleFrame "parent0123" none .in_progress

/-- The push-heuristics configuration of the specification scenario
(threshold 70, only `failure_boundary` and `context_switch` enabled). -/
def scenarioConfig : AutonomyConfig :=
  { level := .suggest, pushThreshold := 70, popThreshold := 80,
    suggestInContext := true,
    enabledHeuristics := ["failure_boundary", "context_switch"] }

/-- Evaluation context realizing heuristic scores
`failure_boundary = 80` (four errors, distinct new goal) and
`context_switch = 20` (full keyword overlap, four changed files). -/
def scenarioContext : PushContextArgs :=
  { recentMessages := none,
    recentFileChanges := some ["a.ts", "b.ts", "c.ts", "d.ts"],
    currentGoal := some "alpha beta", potentialNewGoal := some "beta alpha",
    errorCount := some 4, tokenCount := none }

/-- The empty aggregate. -/
def emptySampleState : StackState :=
  { version := 1, frames := [], activeFrameID := none, rootFrameIDs := [],
    updatedAt := 0 }

/-- Aggregate holding the parent session's frame for the subagent scenario. -/
def subagentParentState : StackState :=
  { version := 1,
    frames := [("ses_parent", sampleFrame "ses_parent" none .in_progress)],
    activeFrameID := some "ses_parent", rootFrameIDs := ["ses_parent"],
    updatedAt := 0 }

/-- A tracked subagent session of `ses_parent` that meets the minimum
duration and message-count heuristics and has no frame yet. -/
def sampleSubagentSession : SubagentSession :=
  { sessionID := "ses_child", parentSessionID := "ses_parent",
    title := "Explore codebase", createdAt := 0, lastActivityAt := 65000,
    isSubagent := false, hasFrame := false, messageCount := 5,
    isIdle := true, isCompleted := false }

-- ============================================================================
-- Lemmas: association-list maps
-- ============================================================================

theorem alGet_alSet_self (m : JMap α) (k : String) (v : α) :
    alGet (alSet m k v) k = some v := by
  induction m with
  | nil => simp [alSet, alGet]
  | cons p rest ih =>
      obtain ⟨k', v'⟩ := p
      by_cases h : k' = k
      · simp [alSet, h, alGet]
      · simp [alSet, h, alGet, ih]

theorem alGet_alSet_ne (m : JMap α) {k k' : String} (v : α) (h : k' ≠ k) :
    alGet (alSet m k v) k' = alGet m k' := by
  induction m with
  | nil =>
      simp only [alSet, alGet]
      rw [if_neg (fun hk => h hk.symm)]
  | cons p rest ih =>
      obtain ⟨k₀, v₀⟩ := p
      by_cases hk : k₀ = k
      · subst hk
        simp only [alSet, if_pos rfl, alGet]
        rw [if_neg (fun hk => h hk.symm), if_neg (fun hk => h hk.symm)]
      · simp only [alSet, if_neg hk, alGet]
        by_cases hk' : k₀ = k'
        · simp [hk']
        · simp [hk', ih]

theorem alSet_length_le (m : JMap α) (k : String) (v : α) :
    (alSet m k v).length ≤ m.length + 1 := by
  induction m with
  | nil => simp [alSet]
  | cons p rest ih =>
      obtain ⟨k', v'⟩ := p
      by_cases h : k' = k
      · simp [alSet, h]
      · simpa [alSet, h] using Nat.succ_le_succ ih

theorem alGet_alErase_self (m : JMap α) (k : String) :
    alGet (alErase m k) k = none := by
  induction m with
  | nil => simp [alErase, alGet]
  | cons p rest ih =>
      obtain ⟨k', v'⟩ := p
      by_cases h : k' = k
      · simpa [alErase, h] using ih
      · simpa [alErase, alGet, h] using ih

theorem alGet_alErase_ne (m : JMap α) {k k' : String} (h : k' ≠ k) :
    alGet (alErase m k) k' = alGet m k' := by
  induction m with
  | nil => rfl
  | cons p rest ih =>
      obtain ⟨k₀, v₀⟩ := p
      by_cases hk : k₀ = k
      · subst hk
        have hne : ¬ k₀ = k' := fun hc => h hc.symm
        simp [alErase, List.filter_cons, alGet, hne, ← ih]
      · by_cases hk' : k₀ = k'
        · simp [alErase, List.filter_cons, alGet, hk, hk', h]
        · simp [alErase, List.filter_cons, alGet, hk, hk', ← ih]

theorem alGet_eq_some_mem {m : JMap α} {k : String} {v : α}
    (h : alGet m k = some v) : (k, v) ∈ m := by
  induction m with
  | nil => simp [alGet] at h
  | cons p rest ih =>
      obtain ⟨k₀, v₀⟩ := p
      by_cases hk : k₀ = k
      · subst hk
        have hv : v₀ = v := by simpa [alGet] using h
        subst hv
        exact List.mem_cons_self _ _
      · simp only [alGet, if_neg hk] at h
        exact List.mem_cons_of_mem _ (ih h)

theorem alGet_of_mem_values {m : JMap FrameMetadata}
    (hkeys : (m.map Prod.fst).Nodup)
    (hcons : ∀ p ∈ m, p.2.sessionID = p.1)
    {v : FrameMetadata} (hv : v ∈ alValues m) :
    alGet m v.sessionID = some v := by
  induction m with
  | nil => simp [alValues] at hv
  | cons p rest ih =>
      obtain ⟨k₀, v₀⟩ := p
      simp only [alValues, List.map_cons, List.mem_cons] at hv
      rcases hv with rfl | hv
      · have hk : v.sessionID = k₀ := hcons (k₀, v) (List.mem_cons_self _ _)
        simp [alGet, hk]
      · obtain ⟨q, hq, hqv⟩ := List.mem_map.mp hv
        have hq1 : q.1 = v.sessionID := by
          rw [← hcons q (List.mem_cons_of_mem _ hq), hqv]
        have hkey : v.sessionID ∈ rest.map Prod.fst := by
          rw [← hq1]; exact List.mem_map_of_mem _ hq
        have hne : k₀ ≠ v.sessionID := by
          intro hc
          exact (List.nodup_cons.mp hkeys).1 (hc ▸ hkey)
        simp only [alGet, if_neg hne]
        exact ih (List.nodup_cons.mp hkeys).2
          (fun p hp => hcons p (List.mem_cons_of_mem _ hp)) hv

-- ============================================================================
-- Lemmas: stable sort permutations
-- ============================================================================

theorem stableInsert_perm (keep : α → α → Bool) (x : α) (l : List α) :
    List.Perm (stableInsert keep x l) (x :: l) := by
  induction l with
  | nil => exact List.Perm.refl _
  | cons y ys ih =>
      by_cases h : keep y x
      · simp only [stableInsert, if_pos h]
        exact (ih.cons y).trans (List.Perm.swap x y ys)
      · simp only [stableInsert, if_neg h]
        exact List.Perm.refl _

theorem stableSortAux_perm (keep : α → α → Bool) :
    ∀ (l acc : List α),
      List.Perm (l.foldl (fun acc x => stableInsert keep x acc) acc) (acc ++ l)
  | [], acc => by simp
  | x :: xs, acc => by
      simp only [List.foldl_cons]
      have h1 := stableSortAux_perm keep xs (stableInsert keep x acc)
      have h2 : List.Perm (stableInsert keep x acc ++ xs) ((x :: acc) ++ xs) :=
        (stableInsert_perm keep x acc).append_right xs
      have h3 : List.Perm ((x :: acc) ++ xs) (acc ++ x :: xs) := by
        rw [List.cons_append]
        exact List.perm_middle.symm
      exact (h1.trans h2).trans h3

theorem stableSort_perm (keep : α → α → Bool) (l : List α) :
    List.Perm (stableSort keep l) l := by
  simpa [stableSort] using stableSortAux_perm keep l []

-- ============================================================================
-- Lemmas: the greedy ancestor pick
-- ============================================================================

theorem ancestorPick_tokens_le (budget : Nat) :
    ∀ (l : List ScoredAncestor) (acc : List ScoredAncestor × Nat × Nat),
      acc.2.1 ≤ budget → (l.foldl (ancestorPickStep budget) acc).2.1 ≤ budget
  | [], _, h => h
  | item :: rest, acc, h => by
      simp only [List.foldl_cons]
      by_cases hfit : acc.2.1 + item.estimatedTokens ≤ budget
      · exact ancestorPick_tokens_le budget rest _
          (by simpa [ancestorPickStep, hfit] using hfit)
      · exact ancestorPick_tokens_le budget rest _
          (by simpa [ancestorPickStep, hfit] using h)

theorem ancestorPick_sum (budget : Nat) :
    ∀ (l : List ScoredAncestor) (acc : List ScoredAncestor × Nat × Nat),
      ((acc.1.map ScoredAncestor.estimatedTokens).sum = acc.2.1) →
      (((l.foldl (ancestorPickStep budget) acc).1.map
          ScoredAncestor.estimatedTokens).sum =
        (l.foldl (ancestorPickStep budget) acc).2.1)
  | [], _, h => h
  | item :: rest, acc, h => by
      simp only [List.foldl_cons]
      by_cases hfit : acc.2.1 + item.estimatedTokens ≤ budget
      · exact ancestorPick_sum budget rest _
          (by simp [ancestorPickStep, hfit, h])
      · exact ancestorPick_sum budget rest _
          (by simpa [ancestorPickStep, hfit] using h)

theorem ancestorPick_mem_preserved (budget : Nat) :
    ∀ (l : List ScoredAncestor) (acc : List ScoredAncestor × Nat × Nat)
      (x : ScoredAncestor), x ∈ acc.1 →
      x ∈ (l.foldl (ancestorPickStep budget) acc).1
  | [], _, _, h => h
  | item :: rest, acc, x, h => by
      simp only [List.foldl_cons]
      by_cases hfit : acc.2.1 + item.estimatedTokens ≤ budget
      · exact ancestorPick_mem_preserved budget rest _ x
          (by simp [ancestorPickStep, hfit, h])
      · exact ancestorPick_mem_preserved budget rest _ x
          (by simpa [ancestorPickStep, hfit] using h)

theorem ancestorPick_mem_source (budget : Nat) :
    ∀ (l : List ScoredAncestor) (acc : List ScoredAncestor × Nat × Nat)
      (x : ScoredAncestor), x ∈ (l.foldl (ancestorPickStep budget) acc).1 →
      x ∈ acc.1 ∨ x ∈ l
  | [], _, _, h => Or.inl h
  | item :: rest, acc, x, h => by
      simp only [List.foldl_cons] at h
      rcases ancestorPick_mem_source budget rest _ x h with hx | hx
      · by_cases hfit : acc.2.1 + item.estimatedTokens ≤ budget
        · simp only [ancestorPickStep, if_pos hfit, List.mem_append,
            List.mem_singleton] at hx
          rcases hx with hx | rfl
          · exact Or.inl hx
          · exact Or.inr (List.mem_cons_self _ _)
        · simp only [ancestorPickStep, if_neg hfit] at hx
          exact Or.inl hx
      · exact Or.inr (List.mem_cons_of_mem _ hx)

-- ============================================================================
-- Lemmas: the primary-reason scan
-- ============================================================================

theorem primaryFold_snd_ge :
    ∀ (l : List (String × ℚ)) (acc : String × ℚ),
      acc.2 ≤ (l.foldl primaryStep acc).2
  | [], _ => le_refl _
  | hs :: rest, acc => by
      simp only [List.foldl_cons]
      refine le_trans ?_ (primaryFold_snd_ge rest (primaryStep acc hs))
      by_cases h : hs.2 > acc.2
      · simp only [primaryStep, if_pos h]
        exact le_of_lt h
      · simp [primaryStep, h]

theorem primaryFold_snd_ge_mem :
    ∀ (l : List (String × ℚ)) (acc : String × ℚ) (q : String × ℚ),
      q ∈ l → q.2 ≤ (l.foldl primaryStep acc).2
  | [], _, _, h => by simp at h
  | hs :: rest, acc, q, h => by
      simp only [List.foldl_cons]
      rcases List.mem_cons.mp h with rfl | h
      · refine le_trans ?_ (primaryFold_snd_ge rest (primaryStep acc q))
        by_cases hgt : q.2 > acc.2
        · simp [primaryStep, hgt]
        · simpa [primaryStep, hgt] using le_of_not_lt hgt
      · exact primaryFold_snd_ge_mem rest _ q h

theorem primaryFold_source :
    ∀ (l : List (String × ℚ)) (acc : String × ℚ),
      (l.foldl primaryStep acc) = acc ∨
        ∃ p ∈ l, (l.foldl primaryStep acc) = (heuristicDisplayName p.1, p.2)
  | [], _ => Or.inl rfl
  | hs :: rest, acc => by
      simp only [List.foldl_cons]
      rcases primaryFold_source rest (primaryStep acc hs) with h | ⟨p, hp, hres⟩
      · by_cases hgt : hs.2 > acc.2
        · refine Or.inr ⟨hs, List.mem_cons_self _ _, ?_⟩
          rw [h]; simp [primaryStep, hgt]
        · left; rw [h]; simp [primaryStep, hgt]
      · exact Or.inr ⟨p, List.mem_cons_of_mem _ hp, hres⟩

-- ============================================================================
-- Lemmas: the cascade fold of `invalidateFrame`
-- ============================================================================

theorem cascadeFold_casc (now : Nat) (reason : String) :
    ∀ (D : List FrameMetadata) (fs : JMap FrameMetadata)
      (cs ws : List FrameMetadata),
      (D.foldl (cascadeStep now reason) (fs, cs, ws)).2.1 =
        cs ++ (D.filter (fun d => d.status = FrameStatus.planned)).map
          (cascadeInvalidate now reason)
  | [], _, _, _ => by simp
  | d :: rest, fs, cs, ws => by
      simp only [List.foldl_cons]
      by_cases hp : d.status = FrameStatus.planned
      · rw [show cascadeStep now reason (fs, cs, ws) d =
            (alSet fs d.sessionID (cascadeInvalidate now reason d),
             cs ++ [cascadeInvalidate now reason d], ws) by
              simp [cascadeStep, hp]]
        rw [cascadeFold_casc now reason rest _ _ _]
        simp [List.filter_cons, hp]
      · by_cases hi : d.status = FrameStatus.in_progress
        · rw [show cascadeStep now reason (fs, cs, ws) d =
              (fs, cs, ws ++ [d]) by simp [cascadeStep, hp, hi]]
          rw [cascadeFold_casc now reason rest _ _ _]
          simp [List.filter_cons, hp]
        · rw [show cascadeStep now reason (fs, cs, ws) d = (fs, cs, ws) by
              simp [cascadeStep, hp, hi]]
          rw [cascadeFold_casc now reason rest _ _ _]
          simp [List.filter_cons, hp]

theorem cascadeFold_warn (now : Nat) (reason : String) :
    ∀ (D : List FrameMetadata) (fs : JMap FrameMetadata)
      (cs ws : List FrameMetadata),
      (D.foldl (cascadeStep now reason) (fs, cs, ws)).2.2 =
        ws ++ D.filter (fun d => d.status = FrameStatus.in_progress)
  | [], _, _, _ => by simp
  | d :: rest, fs, cs, ws => by
      simp only [List.foldl_cons]
      by_cases hp : d.status = FrameStatus.planned
      · rw [show cascadeStep now reason (fs, cs, ws) d =
            (alSet fs d.sessionID (cascadeInvalidate now reason d),
             cs ++ [cascadeInvalidate now reason d], ws) by
              simp [cascadeStep, hp]]
        rw [cascadeFold_warn now reason rest _ _ _]
        have : ¬ d.status = FrameStatus.in_progress := by rw [hp]; intro h; cases h
        simp [List.filter_cons, this]
      · by_cases hi : d.status = FrameStatus.in_progress
        · rw [show cascadeStep now reason (fs, cs, ws) d =
              (fs, cs, ws ++ [d]) by simp [cascadeStep, hp, hi]]
          rw [cascadeFold_warn now reason rest _ _ _]
          simp [List.filter_cons, hi]
        · rw [show cascadeStep now reason (fs, cs, ws) d = (fs, cs, ws) by
              simp [cascadeStep, hp, hi]]
          rw [cascadeFold_warn now reason rest _ _ _]
          simp [List.filter_cons, hi]

theorem cascadeFold_get_notmem (now : Nat) (reason : String) :
    ∀ (D : List FrameMetadata) (fs : JMap FrameMetadata)
      (cs ws : List FrameMetadata) (k : String),
      k ∉ D.map FrameMetadata.sessionID →
      alGet (D.foldl (cascadeStep now reason) (fs, cs, ws)).1 k = alGet fs k
  | [], _, _, _, _, _ => rfl
  | d :: rest, fs, cs, ws, k, hk => by
      simp only [List.map_cons, List.mem_cons, not_or] at hk
      simp only [List.foldl_cons]
      by_cases hp : d.status = FrameStatus.planned
      · rw [show cascadeStep now reason (fs, cs, ws) d =
            (alSet fs d.sessionID (cascadeInvalidate now reason d),
             cs ++ [cascadeInvalidate now reason d], ws) by
              simp [cascadeStep, hp]]
        rw [cascadeFold_get_notmem now reason rest _ _ _ k hk.2]
        exact alGet_alSet_ne fs _ hk.1
      · by_cases hi : d.status = FrameStatus.in_progress
        · rw [show cascadeStep now reason (fs, cs, ws) d =
              (fs, cs, ws ++ [d]) by simp [cascadeStep, hp, hi]]
          exact cascadeFold_get_notmem now reason rest _ _ _ k hk.2
        · rw [show cascadeStep now reason (fs, cs, ws) d = (fs, cs, ws) by
              simp [cascadeStep, hp, hi]]
          exact cascadeFold_get_notmem now reason rest _ _ _ k hk.2

theorem cascadeFold_get_planned (now : Nat) (reason : String) :
    ∀ (D : List FrameMetadata) (fs : JMap FrameMetadata)
      (cs ws : List FrameMetadata) (d : FrameMetadata),
      (D.map FrameMetadata.sessionID).Nodup → d ∈ D →
      d.status = FrameStatus.planned →
      alGet (D.foldl (cascadeStep now reason) (fs, cs, ws)).1 d.sessionID =
        some (cascadeInvalidate now reason d)
  | [], _, _, _, _, _, h, _ => by simp at h
  | e :: rest, fs, cs, ws, d, hnd, hd, hp => by
      simp only [List.map_cons, List.nodup_cons] at hnd
      rcases List.mem_cons.mp hd with rfl | hd
      · simp only [List.foldl_cons]
        rw [show cascadeStep now reason (fs, cs, ws) d =
            (alSet fs d.sessionID (cascadeInvalidate now reason d),
             cs ++ [cascadeInvalidate now reason d], ws) by
              simp [cascadeStep, hp]]
        rw [cascadeFold_get_notmem now reason rest _ _ _ _ hnd.1]
        exact alGet_alSet_self _ _ _
      · have hne : e.sessionID ≠ d.sessionID := by
          intro hc
          exact hnd.1 (hc ▸ List.mem_map_of_mem FrameMetadata.sessionID hd)
        simp only [List.foldl_cons]
        by_cases hep : e.status = FrameStatus.planned
        · rw [show cascadeStep now reason (fs, cs, ws) e =
              (alSet fs e.sessionID (cascadeInvalidate now reason e),
               cs ++ [cascadeInvalidate now reason e], ws) by
                simp [cascadeStep, hep]]
          exact cascadeFold_get_planned now reason rest _ _ _ d hnd.2 hd hp
        · by_cases hei : e.status = FrameStatus.in_progress
          · rw [show cascadeStep now reason (fs, cs, ws) e =
                (fs, cs, ws ++ [e]) by simp [cascadeStep, hep, hei]]
            exact cascadeFold_get_planned now reason rest _ _ _ d hnd.2 hd hp
          · rw [show cascadeStep now reason (fs, cs, ws) e = (fs, cs, ws) by
                simp [cascadeStep, hep, hei]]
            exact cascadeFold_get_planned now reason rest _ _ _ d hnd.2 hd hp

theorem cascadeFold_get_nonplanned (now : Nat) (reason : String) :
    ∀ (D : List FrameMetadata) (fs : JMap FrameMetadata)
      (cs ws : List FrameMetadata) (d : FrameMetadata),
      (D.map FrameMetadata.sessionID).Nodup → d ∈ D →
      d.status ≠ FrameStatus.planned →
      alGet (D.foldl (cascadeStep now reason) (fs, cs, ws)).1 d.sessionID =
        alGet fs d.sessionID
  | [], _, _, _, _, _, h, _ => by simp at h
  | e :: rest, fs, cs, ws, d, hnd, hd, hp => by
      simp only [List.map_cons, List.nodup_cons] at hnd
      rcases List.mem_cons.mp hd with rfl | hd
      · simp only [List.foldl_cons]
        rcases hstep : cascadeStep now reason (fs, cs, ws) d with ⟨fs', cs', ws'⟩
        have hfs : fs' = fs := by
          by_cases hi : d.status = FrameStatus.in_progress
          · simp [cascadeStep, hp, hi] at hstep
            exact hstep.1.symm
          · simp [cascadeStep, hp, hi] at hstep
            exact hstep.1.symm
        rw [cascadeFold_get_notmem now reason rest fs' cs' ws' d.sessionID hnd.1,
          hfs]
      · have hne : e.sessionID ≠ d.sessionID := by
          intro hc
          exact hnd.1 (hc ▸ List.mem_map_of_mem FrameMetadata.sessionID hd)
        simp only [List.foldl_cons]
        by_cases hep : e.status = FrameStatus.planned
        · rw [show cascadeStep now reason (fs, cs, ws) e =
              (alSet fs e.sessionID (cascadeInvalidate now reason e),
               cs ++ [cascadeInvalidate now reason e], ws) by
                simp [cascadeStep, hep]]
          rw [cascadeFold_get_nonplanned now reason rest _ _ _ d hnd.2 hd hp]
          exact alGet_alSet_ne fs _ (fun hc => hne hc.symm)
        · by_cases hei : e.status = FrameStatus.in_progress
          · rw [show cascadeStep now reason (fs, cs, ws) e =
                (fs, cs, ws ++ [e]) by simp [cascadeStep, hep, hei]]
            exact cascadeFold_get_nonplanned now reason rest _ _ _ d hnd.2 hd hp
          · rw [show cascadeStep now reason (fs, cs, ws) e = (fs, cs, ws) by
                simp [cascadeStep, hep, hei]]
            exact cascadeFold_get_nonplanned now reason rest _ _ _ d hnd.2 hd hp

-- ============================================================================
-- Lemmas: descendants and the cache store
-- ============================================================================

theorem mem_getAllDescendants_values (m : JMap FrameMetadata) :
    ∀ (fuel : Nat) (pid : String) (d : FrameMetadata),
      d ∈ getAllDescendants m fuel pid → d ∈ alValues m
  | 0, _, _ => by simp [getAllDescendants]
  | fuel + 1, pid, d => by
      intro hd
      simp only [getAllDescendants, List.mem_append] at hd
      rcases hd with hd | hd
      · exact List.mem_of_mem_filter hd
      · rw [List.mem_flatMap] at hd
        obtain ⟨c, _, hd⟩ := hd
        exact mem_getAllDescendants_values m fuel _ d hd

theorem cacheContext_get_self (cache : JMap CacheEntry) (now : Nat)
    (sid xml hash : String) (tok : Nat) (hlen : cache.length < 50) :
    alGet (cacheContext cache now sid xml hash tok) sid =
      some { context := xml, createdAt := now, sessionID := sid,
             stateHash := hash, tokenCount := tok } := by
  unfold cacheContext
  have h1 := alSet_length_le cache sid
    ({ context := xml, createdAt := now, sessionID := sid,
       stateHash := hash, tokenCount := tok } : CacheEntry)
  rw [if_neg (by omega)]
  exact alGet_alSet_self _ _ _

-- ============================================================================
-- Claim C1 — completing an already-terminal frame
-- ============================================================================

/-- C1 (counterexample): the claim states that the Frame Store `complete`
operation fails on a frame already in terminal status and leaves `results` /
`resultsCompacted` unchanged. On the concrete aggregate holding the completed
frame `d` (results `orig`), `FrameStateManager.completeFrame` performs no
status check: it succeeds (returning the parent id) and overwrites both
result fields. -/
theorem completeFrame_recompletes_terminal_frame :
    (alGet completedSampleState.frames "d").map FrameMetadata.status =
      some FrameStatus.completed ∧
    (alGet completedSampleState.frames "d").map FrameMetadata.results =
      some (some "orig") ∧
    (completeFrame completedSampleState 9 "d" FrameStatus.completed "new"
      "new-rc").2 = some (some "r") ∧
    (alGet (completeFrame completedSampleState 9 "d" FrameStatus.completed
      "new" "new-rc").1.frames "d").map FrameMetadata.results =
      some (some "new") ∧
    (alGet (completeFrame completedSampleState 9 "d" FrameStatus.completed
      "new" "new-rc").1.frames "d").map FrameMetadata.resultsCompacted =
      some (some "new-rc") := by
  decide

/-- C1 (amended): the terminal-status guard lives in the `stack_frame_pop`
command, not in the store: for every aggregate and every frame with a parent
whose status is already `completed`, `failed` or `invalidated`, the
`stack_frame_pop` command rejects the call with the terminal-status error and
returns the aggregate unchanged (so `results`/`resultsCompacted` are
untouched); `FrameStateManager.completeFrame` itself checks nothing. -/
theorem stackFramePop_rejects_terminal (state : StackState) (now : Nat)
    (target : String) (status : FrameStatus) (results resultsCompacted : String)
    (frame : FrameMetadata)
    (htarget : target ≠ "")
    (hres : jsTrim results ≠ "") (hrc : jsTrim resultsCompacted ≠ "")
    (hget : alGet state.frames target = some frame)
    (hparent : jsTruthyStr frame.parentSessionID = true)
    (hterm : frame.status = FrameStatus.completed ∨
      frame.status = FrameStatus.failed ∨
      frame.status = FrameStatus.invalidated) :
    stackFramePop state now target status results resultsCompacted =
      (state, some ("Error: Frame already has terminal status: " ++
        statusText frame.status ++ ". Cannot pop again.")) := by
  unfold stackFramePop
  rw [if_neg htarget, if_neg hres, if_neg hrc, hget]
  simp only [hparent, not_true_eq_false, if_false, if_pos hterm]

/-- Witness for `stackFramePop_rejects_terminal` at the concrete completed
frame `d`. -/
theorem stackFramePop_rejects_terminal_witness :
    stackFramePop completedSampleState 9 "d" FrameStatus.completed "new"
      "new-rc" =
      (completedSampleState, some ("Error: Frame already has terminal status: " ++
        statusText completedSampleFrame.status ++ ". Cannot pop again.")) :=
  stackFramePop_rejects_terminal completedSampleState 9 "d"
    FrameStatus.completed "new" "new-rc" completedSampleFrame
    (by decide) (by decide) (by decide) (by decide) (by decide)
    (Or.inl (by decide))

-- ============================================================================
-- Claim C8 — completing a root frame
-- ============================================================================

/-- C8 (counterexample): the claim states that completing a parentless frame
fails and leaves the aggregate unchanged. On the concrete aggregate whose
only frame is the root `r`, `FrameStateManager.completeFrame` succeeds
(returning `some none` as the parent), sets the result fields, and clears
`activeFrameID` — the aggregate changes. -/
theorem completeFrame_completes_root_frame :
    (alGet rootOnlySampleState.frames "r").map FrameMetadata.parentSessionID =
      some none ∧
    (completeFrame rootOnlySampleState 9 "r" FrameStatus.completed "res"
      "res-rc").2 = some none ∧
    (alGet (completeFrame rootOnlySampleState 9 "r" FrameStatus.completed
      "res" "res-rc").1.frames "r").map FrameMetadata.results =
      some (some "res") ∧
    (completeFrame rootOnlySampleState 9 "r" FrameStatus.completed "res"
      "res-rc").1.activeFrameID = none ∧
    (completeFrame rootOnlySampleState 9 "r" FrameStatus.completed "res"
      "res-rc").1 ≠ rootOnlySampleState := by
  decide

/-- C8 (amended): the root guard lives in the `stack_frame_pop` command, not
in the store: for every aggregate and every parentless frame, the
`stack_frame_pop` command rejects the call with the root-frame error before
any mutation, returning the aggregate unchanged;
`FrameStateManager.completeFrame` itself would complete the root. -/
theorem stackFramePop_rejects_root (state : StackState) (now : Nat)
    (target : String) (status : FrameStatus) (results resultsCompacted : String)
    (frame : FrameMetadata)
    (htarget : target ≠ "")
    (hres : jsTrim results ≠ "") (hrc : jsTrim resultsCompacted ≠ "")
    (hget : alGet state.frames target = some frame)
    (hroot : frame.parentSessionID = none) :
    stackFramePop state now target status results resultsCompacted =
      (state, some "Error: Cannot pop from root frame. This is the top-level frame.") := by
  unfold stackFramePop
  rw [if_neg htarget, if_neg hres, if_neg hrc, hget]
  simp [hroot, jsTruthyStr]

/-- Witness for `stackFramePop_rejects_root` at the concrete root frame. -/
theorem stackFramePop_rejects_root_witness :
    stackFramePop rootOnlySampleState 9 "r" FrameStatus.completed "res"
      "res-rc" =
      (rootOnlySampleState,
       some "Error: Cannot pop from root frame. This is the top-level frame.") :=
  stackFramePop_rejects_root rootOnlySampleState 9 "r" FrameStatus.completed
    "res" "res-rc" (sampleFrame "r" none FrameStatus.in_progress)
    (by decide) (by decide) (by decide) (by decide) (by decide)

-- ============================================================================
-- Claim C7 — creating a frame whose id already exists
-- ============================================================================

/-- C7 (counterexample): the claim states that `create` fails when the id
already exists and preserves the existing frame. On the concrete aggregate
holding root `r` (title `t-r`), `createFrame` with the same id succeeds,
replaces the stored title, and appends a duplicate entry to `rootFrameIDs`. -/
theorem createFrame_overwrites_concrete :
    (alGet rootOnlySampleState.frames "r").map FrameMetadata.title =
      some "t-r" ∧
    (alGet (createFrame rootOnlySampleState 9 "r" "overwritten" "sc2" "scc2"
      none).1.frames "r").map FrameMetadata.title = some "overwritten" ∧
    (createFrame rootOnlySampleState 9 "r" "overwritten" "sc2" "scc2"
      none).1.rootFrameIDs = ["r", "r"] := by
  decide

/-- C7 (amended): neither `createFrame` nor `createPlannedFrame` checks for
an existing id: both silently overwrite the stored frame with the freshly
built record (and a parentless `createFrame` appends the id to
`rootFrameIDs` again). -/
theorem createFrame_overwrites_existing (state : StackState) (now : Nat)
    (id title sc scc : String) (parent : Option String) (old : FrameMetadata)
    (hold : alGet state.frames id = some old)
    (hpar : parent ≠ some id) :
    alGet (createFrame state now id title sc scc parent).1.frames id =
      some (createFrame state now id title sc scc parent).2 ∧
    (createFrame state now id title sc scc parent).2.title = title ∧
    (createFrame state now id title sc scc parent).2.successCriteria = sc ∧
    (createFrame state now id title sc scc parent).2.status =
      FrameStatus.in_progress ∧
    (parent = none →
      (createFrame state now id title sc scc parent).1.rootFrameIDs =
        state.rootFrameIDs ++ [id]) ∧
    alGet (createPlannedFrame state now id title sc scc parent).1.frames id =
      some (createPlannedFrame state now id title sc scc parent).2 := by
  refine ⟨?_, rfl, rfl, rfl, ?_, ?_⟩
  · show alGet (alSet state.frames id _) id = some _
    exact alGet_alSet_self _ _ _
  · intro h
    subst h
    simp [createFrame, jsTruthyStr]
  · unfold createPlannedFrame
    cases parent with
    | none => exact alGet_alSet_self _ _ _
    | some pid =>
        have hpid : ¬ pid = id := fun h => hpar (by rw [h])
        cases hp : alGet (alSet state.frames id
          ({ sessionID := id, parentSessionID := some pid,
             status := FrameStatus.planned, title := title,
             successCriteria := sc, successCriteriaCompacted := scc,
             results := none, resultsCompacted := none, createdAt := now,
             updatedAt := now, artifacts := [], decisions := [],
             logPath := none, invalidationReason := none,
             invalidatedAt := none,
             plannedChildren := some [] } : FrameMetadata)) pid with
        | none => simp only [hp]; exact alGet_alSet_self _ _ _
        | some parentFrame =>
            simp only [hp]
            rw [alGet_alSet_ne _ _ (fun h => hpid h.symm)]
            exact alGet_alSet_self _ _ _

/-- Witness for `createFrame_overwrites_existing` at the concrete root
frame. -/
theorem createFrame_overwrites_existing_witness :
    alGet (createFrame rootOnlySampleState 9 "r" "overwritten" "sc2" "scc2"
      none).1.frames "r" =
      some (createFrame rootOnlySampleState 9 "r" "overwritten" "sc2" "scc2"
        none).2 ∧
    (createFrame rootOnlySampleState 9 "r" "overwritten" "sc2" "scc2"
      none).2.title = "overwritten" ∧
    (createFrame rootOnlySampleState 9 "r" "overwritten" "sc2" "scc2"
      none).2.successCriteria = "sc2" ∧
    (createFrame rootOnlySampleState 9 "r" "overwritten" "sc2" "scc2"
      none).2.status = FrameStatus.in_progress ∧
    (none = (none : Option String) →
      (createFrame rootOnlySampleState 9 "r" "overwritten" "sc2" "scc2"
        none).1.rootFrameIDs = rootOnlySampleState.rootFrameIDs ++ ["r"]) ∧
    alGet (createPlannedFrame rootOnlySampleState 9 "r" "overwritten" "sc2"
      "scc2" none).1.frames "r" =
      some (createPlannedFrame rootOnlySampleState 9 "r" "overwritten" "sc2"
        "scc2" none).2 :=
  createFrame_overwrites_existing rootOnlySampleState 9 "r" "overwritten"
    "sc2" "scc2" none (sampleFrame "r" none FrameStatus.in_progress)
    (by decide) (by decide)

-- ============================================================================
-- Claim C10 — subagent frames and their parent pointer
-- ============================================================================

/-- C10: the claim states that every frame the Idle/Subagent Tracker creates
for a tracked child session is stored with `parentSessionID` equal to the
parent session's id and is not added to `rootFrameIDs`. Evaluating the code
at a tracked session of `ses_parent` that meets the heuristics: the
three-argument `createFrame` call lands the parent id in `successCriteria`
and leaves `parentSessionID` undefined, so the created frame is parentless
and IS appended to `rootFrameIDs` — contradicting the claim (and the call
site's own logging intent). -/
theorem subagentFrame_created_as_parentless_root :
    (maybeCreateSubagentFrame subagentParentState 70000 60000 3
      sampleSubagentSession).2 = true ∧
    (alGet (maybeCreateSubagentFrame subagentParentState 70000 60000 3
      sampleSubagentSession).1.frames "ses_child").map
      FrameMetadata.parentSessionID = some none ∧
    (alGet (maybeCreateSubagentFrame subagentParentState 70000 60000 3
      sampleSubagentSession).1.frames "ses_child").map
      FrameMetadata.successCriteria = some "ses_parent" ∧
    "ses_child" ∈ (maybeCreateSubagentFrame subagentParentState 70000 60000 3
      sampleSubagentSession).1.rootFrameIDs := by
  decide

-- ============================================================================
-- Claim C4 — ancestor selection: budget bound and the immediate parent
-- ============================================================================

theorem scoreAncestorsFrom_est (now : Nat) (cur : Option FrameMetadata) :
    ∀ (l : List FrameMetadata) (k : Nat) (x : ScoredAncestor),
      x ∈ scoreAncestorsFrom now cur k l →
      x.estimatedTokens = estimateTokens (formatAncestorForContext x.ancestor)
  | [], _, _, hx => by simp [scoreAncestorsFrom] at hx
  | a :: rest, k, x, hx => by
      simp only [scoreAncestorsFrom, List.mem_cons] at hx
      rcases hx with rfl | hx
      · rfl
      · exact scoreAncestorsFrom_est now cur rest (k + 1) x hx

/-- C4 (amended): for every ancestor chain and ancestors budget, the summed
estimated tokens of the selected ancestors stay within the budget (the
reported `tokensUsed` is exactly that sum), and the immediate parent — always
considered first regardless of its score — is selected whenever its own
estimate fits the budget. (Its unconditional inclusion fails when it does
not fit; see the counterexample.) -/
theorem selectAncestors_budget_spec (now : Nat) (ancestors : List FrameMetadata)
    (budget : Nat) (cur : Option FrameMetadata) :
    (selectAncestors now ancestors budget cur).tokensUsed ≤ budget ∧
    ((selectAncestors now ancestors budget cur).selected.map
      (fun a => estimateTokens (formatAncestorForContext a))).sum =
      (selectAncestors now ancestors budget cur).tokensUsed ∧
    (∀ parent rest, ancestors = parent :: rest →
      estimateTokens (formatAncestorForContext parent) ≤ budget →
      parent ∈ (selectAncestors now ancestors budget cur).selected) := by
  by_cases hnil : ancestors = []
  · subst hnil
    exact ⟨Nat.zero_le _, rfl, fun parent rest h _ => by simp at h⟩
  · obtain ⟨parent, rest, rfl⟩ := List.exists_cons_of_ne_nil hnil
    have hsel2 : selectAncestors now (parent :: rest) budget cur =
        ⟨(stableSort (fun a b => decide (b.depth ≤ a.depth))
            (greedyPickAncestors budget
              (({ ancestor := parent, depth := 0,
                  score := scoreAncestor now parent 0 cur,
                  estimatedTokens :=
                    estimateTokens (formatAncestorForContext parent) } :
                ScoredAncestor) ::
                stableSort (fun a b => decide (b.score ≤ a.score))
                  (scoreAncestorsFrom now cur 1 rest))).1).map
            ScoredAncestor.ancestor,
          (greedyPickAncestors budget
            (({ ancestor := parent, depth := 0,
                score := scoreAncestor now parent 0 cur,
                estimatedTokens :=
                  estimateTokens (formatAncestorForContext parent) } :
              ScoredAncestor) ::
              stableSort (fun a b => decide (b.score ≤ a.score))
                (scoreAncestorsFrom now cur 1 rest))).2.2,
          (greedyPickAncestors budget
            (({ ancestor := parent, depth := 0,
                score := scoreAncestor now parent 0 cur,
                estimatedTokens :=
                  estimateTokens (formatAncestorForContext parent) } :
              ScoredAncestor) ::
              stableSort (fun a b => decide (b.score ≤ a.score))
                (scoreAncestorsFrom now cur 1 rest))).2.1⟩ := rfl
    set pItem : ScoredAncestor :=
      { ancestor := parent, depth := 0,
        score := scoreAncestor now parent 0 cur,
        estimatedTokens := estimateTokens (formatAncestorForContext parent) }
      with hpItem
    set sorted := pItem :: stableSort (fun a b => decide (b.score ≤ a.score))
      (scoreAncestorsFrom now cur 1 rest) with hsorted
    set pick := greedyPickAncestors budget sorted with hpick
    set restored := stableSort (fun a b => decide (b.depth ≤ a.depth)) pick.1
      with hrestored
    have hperm : List.Perm restored pick.1 := stableSort_perm _ _
    have hmem_sorted : ∀ x ∈ pick.1, x ∈ sorted := by
      intro x hx
      rcases ancestorPick_mem_source budget sorted ([], 0, 0) x hx with hx0 | hx0
      · simp at hx0
      · exact hx0
    have hprop : ∀ x ∈ pick.1,
        x.estimatedTokens = estimateTokens (formatAncestorForContext x.ancestor) := by
      intro x hx
      rcases List.mem_cons.mp (hmem_sorted x hx) with rfl | hx1
      · rfl
      · exact scoreAncestorsFrom_est now cur rest 1 x
          ((stableSort_perm _ _).mem_iff.mp hx1)
    refine ⟨?_, ?_, ?_⟩
    · rw [hsel2]
      exact ancestorPick_tokens_le budget sorted ([], 0, 0) (Nat.zero_le _)
    · rw [hsel2]
      show ((restored.map ScoredAncestor.ancestor).map
          (fun a => estimateTokens (formatAncestorForContext a))).sum = pick.2.1
      rw [List.map_map]
      have hmaps : restored.map
          ((fun a => estimateTokens (formatAncestorForContext a)) ∘
            ScoredAncestor.ancestor) =
          restored.map ScoredAncestor.estimatedTokens := by
        apply List.map_congr_left
        intro x hx
        exact (hprop x (hperm.mem_iff.mp hx)).symm
      rw [hmaps]
      rw [(hperm.map ScoredAncestor.estimatedTokens).sum_eq]
      exact ancestorPick_sum budget sorted ([], 0, 0) rfl
    · intro parent' rest' heq hfit
      have hp' : parent' = parent := by
        injection heq with h1 h2
        exact h1.symm
      rw [hp'] at hfit ⊢
      rw [hsel2]
      show parent ∈ restored.map ScoredAncestor.ancestor
      have hstep : List.foldl (ancestorPickStep budget) ([], 0, 0) sorted =
          List.foldl (ancestorPickStep budget) ([pItem], pItem.estimatedTokens, 0)
            (stableSort (fun a b => decide (b.score ≤ a.score))
              (scoreAncestorsFrom now cur 1 rest)) := by
        rw [hsorted, List.foldl_cons]
        congr 1
        simp only [ancestorPickStep, Nat.zero_add]
        rw [if_pos hfit]
        simp
      have hmem : pItem ∈ pick.1 := by
        rw [hpick, greedyPickAncestors, hstep]
        exact ancestorPick_mem_preserved budget _ _ pItem (List.mem_singleton.mpr rfl)
      have : pItem ∈ restored := hperm.mem_iff.mpr hmem
      exact List.mem_map_of_mem ScoredAncestor.ancestor this

/-- Witness for `selectAncestors_budget_spec` on a two-ancestor chain with
the default ancestors budget. -/
theorem selectAncestors_budget_spec_witness :
    (selectAncestors 0 [sampleFrame "p" (some "g") FrameStatus.in_progress,
        sampleFrame "g" none FrameStatus.in_progress] 1500 none).tokensUsed ≤
      1500 ∧
    (((selectAncestors 0 [sampleFrame "p" (some "g") FrameStatus.in_progress,
        sampleFrame "g" none FrameStatus.in_progress] 1500 none).selected.map
      (fun a => estimateTokens (formatAncestorForContext a))).sum =
      (selectAncestors 0 [sampleFrame "p" (some "g") FrameStatus.in_progress,
        sampleFrame "g" none FrameStatus.in_progress] 1500 none).tokensUsed) ∧
    sampleFrame "p" (some "g") FrameStatus.in_progress ∈
      (selectAncestors 0 [sampleFrame "p" (some "g") FrameStatus.in_progress,
        sampleFrame "g" none FrameStatus.in_progress] 1500 none).selected := by
  have h := selectAncestors_budget_spec 0
    [sampleFrame "p" (some "g") FrameStatus.in_progress,
     sampleFrame "g" none FrameStatus.in_progress] 1500 none
  exact ⟨h.1, h.2.1, h.2.2 (sampleFrame "p" (some "g") FrameStatus.in_progress)
    [sampleFrame "g" none FrameStatus.in_progress] rfl (by decide)⟩

/-- C4 (counterexample): the claim's second half states that the immediate
parent is always selected regardless of its estimated size. With a single
ancestor whose formatted text estimates to 7 tokens and an ancestors budget
of 1, the selection returns no ancestors at all (the parent is counted as
truncated) — the parent is not in the selected set. -/
theorem selectAncestors_drops_oversized_parent :
    [oversizedParent] ≠ ([] : List FrameMetadata) ∧
    estimateTokens (formatAncestorForContext oversizedParent) = 7 ∧
    (selectAncestors 0 [oversizedParent] 1 none).selected = [] ∧
    (selectAncestors 0 [oversizedParent] 1 none).truncatedCount = 1 ∧
    oversizedParent ∉ (selectAncestors 0 [oversizedParent] 1 none).selected := by
  decide

-- ============================================================================
-- Claim C9 — push evaluator: averaged confidence, threshold, primary reason
-- ============================================================================

theorem pushConfidence_of_ne_nil (scores : List (String × ℚ))
    (h : scores ≠ []) :
    pushConfidence scores =
      jsRound ((scores.map Prod.snd).sum / (scores.length : ℚ)) := by
  unfold pushConfidence
  rw [if_pos (List.length_pos.mpr h)]

theorem extractKeywords_alphaBeta :
    extractKeywords "alpha beta" = ["alpha", "beta"] := by decide

theorem extractKeywords_betaAlpha :
    extractKeywords "beta alpha" = ["beta", "alpha"] := by decide

theorem scenarioScores_eq :
    pushHeuristicScores scenarioConfig emptySampleState "ses_x" scenarioContext
      = [("failure_boundary", 80), ("context_switch", 20)] := by
  unfold pushHeuristicScores
  norm_num +decide [scenarioConfig, scenarioContext, emptySampleState, alGet,
    jsOrNat, jsOrStr, jsMin, jsRound, jsTruthyStr, extractKeywords_alphaBeta,
    extractKeywords_betaAlpha]

theorem scenarioScores40_eq :
    pushHeuristicScores { scenarioConfig with pushThreshold := 40 }
      emptySampleState "ses_x" scenarioContext
      = [("failure_boundary", 80), ("context_switch", 20)] := by
  unfold pushHeuristicScores
  norm_num +decide [scenarioConfig, scenarioContext, emptySampleState, alGet,
    jsOrNat, jsOrStr, jsMin, jsRound, jsTruthyStr, extractKeywords_alphaBeta,
    extractKeywords_betaAlpha]

theorem scenarioScoresField :
    (evaluatePushHeuristics scenarioConfig emptySampleState "ses_x"
      scenarioContext).heuristicScores
      = [("failure_boundary", 80), ("context_switch", 20)] :=
  scenarioScores_eq

theorem scenarioConfidence :
    (evaluatePushHeuristics scenarioConfig emptySampleState "ses_x"
      scenarioContext).confidence = 50 := by
  show pushConfidence (pushHeuristicScores scenarioConfig emptySampleState
    "ses_x" scenarioContext) = 50
  rw [scenarioScores_eq]
  norm_num [pushConfidence, jsRound]

theorem scenarioShouldPush :
    (evaluatePushHeuristics scenarioConfig emptySampleState "ses_x"
      scenarioContext).shouldPush = false := by
  show decide (scenarioConfig.pushThreshold ≤
    pushConfidence (pushHeuristicScores scenarioConfig emptySampleState
      "ses_x" scenarioContext)) = false
  rw [scenarioScores_eq]
  norm_num [pushConfidence, jsRound, scenarioConfig]

theorem scenarioConfidence40 :
    (evaluatePushHeuristics { scenarioConfig with pushThreshold := 40 }
      emptySampleState "ses_x" scenarioContext).confidence = 50 := by
  show pushConfidence (pushHeuristicScores
    { scenarioConfig with pushThreshold := 40 } emptySampleState "ses_x"
    scenarioContext) = 50
  rw [scenarioScores40_eq]
  norm_num [pushConfidence, jsRound]

theorem scenarioShouldPush40 :
    (evaluatePushHeuristics { scenarioConfig with pushThreshold := 40 }
      emptySampleState "ses_x" scenarioContext).shouldPush = true := by
  show decide ((40 : ℤ) ≤
    pushConfidence (pushHeuristicScores
      { scenarioConfig with pushThreshold := 40 } emptySampleState "ses_x"
      scenarioContext)) = true
  rw [scenarioScores40_eq]
  norm_num [pushConfidence, jsRound]

theorem scenarioPrimary40 :
    (evaluatePushHeuristics { scenarioConfig with pushThreshold := 40 }
      emptySampleState "ses_x" scenarioContext).primaryReason =
      heuristicDisplayName "failure_boundary" := by
  show (primaryReasonOf (pushHeuristicScores
    { scenarioConfig with pushThreshold := 40 } emptySampleState "ses_x"
    scenarioContext)).1 = _
  rw [scenarioScores40_eq]
  norm_num [primaryReasonOf, primaryStep, List.foldl]

/-- C9: the push evaluator's confidence is the rounded average of the
enabled heuristics' scores, a push is recommended exactly when the
confidence reaches the push threshold, and (whenever some heuristic scored
positively) the reported primary reason is a top-scoring heuristic. In the
specification scenario — only `failure_boundary` and `context_switch`
enabled, scoring 80 and 20 — the confidence is 50, no push is recommended at
threshold 70, and at threshold 40 a push is recommended with primary reason
`failure_boundary` (reported as `failure boundary`). -/
theorem evaluatePushHeuristics_spec :
    (∀ (cfg : AutonomyConfig) (state : StackState) (sid : String)
        (ctx : PushContextArgs),
      (evaluatePushHeuristics cfg state sid ctx).heuristicScores ≠ [] →
      (evaluatePushHeuristics cfg state sid ctx).confidence =
        jsRound
          ((((evaluatePushHeuristics cfg state sid ctx).heuristicScores.map
            Prod.snd).sum) /
          (((evaluatePushHeuristics cfg state sid ctx).heuristicScores.length :
            ℚ)))) ∧
    (∀ (cfg : AutonomyConfig) (state : StackState) (sid : String)
        (ctx : PushContextArgs),
      ((evaluatePushHeuristics cfg state sid ctx).shouldPush = true ↔
        cfg.pushThreshold ≤ (evaluatePushHeuristics cfg state sid ctx).confidence)) ∧
    (∀ (cfg : AutonomyConfig) (state : StackState) (sid : String)
        (ctx : PushContextArgs) (p : String × ℚ),
      p ∈ (evaluatePushHeuristics cfg state sid ctx).heuristicScores →
      0 < p.2 →
      ∃ q ∈ (evaluatePushHeuristics cfg state sid ctx).heuristicScores,
        (evaluatePushHeuristics cfg state sid ctx).primaryReason =
          heuristicDisplayName q.1 ∧
        ∀ r ∈ (evaluatePushHeuristics cfg state sid ctx).heuristicScores,
          r.2 ≤ q.2) ∧
    ((evaluatePushHeuristics scenarioConfig emptySampleState "ses_x"
        scenarioContext).heuristicScores =
      [("failure_boundary", 80), ("context_switch", 20)] ∧
     (evaluatePushHeuristics scenarioConfig emptySampleState "ses_x"
        scenarioContext).confidence = 50 ∧
     (evaluatePushHeuristics scenarioConfig emptySampleState "ses_x"
        scenarioContext).shouldPush = false) ∧
    ((evaluatePushHeuristics { scenarioConfig with pushThreshold := 40 }
        emptySampleState "ses_x" scenarioContext).confidence = 50 ∧
     (evaluatePushHeuristics { scenarioConfig with pushThreshold := 40 }
        emptySampleState "ses_x" scenarioContext).shouldPush = true ∧
     (evaluatePushHeuristics { scenarioConfig with pushThreshold := 40 }
        emptySampleState "ses_x" scenarioContext).primaryReason =
      heuristicDisplayName "failure_boundary") := by
  refine ⟨?_, ?_, ?_,
    ⟨scenarioScoresField, scenarioConfidence, scenarioShouldPush⟩,
    ⟨scenarioConfidence40, scenarioShouldPush40, scenarioPrimary40⟩⟩
  · intro cfg state sid ctx h
    exact pushConfidence_of_ne_nil (pushHeuristicScores cfg state sid ctx) h
  · intro cfg state sid ctx
    show decide (cfg.pushThreshold ≤
      pushConfidence (pushHeuristicScores cfg state sid ctx)) = true ↔ _
    exact decide_eq_true_iff
  · intro cfg state sid ctx p hp hpos
    rcases primaryFold_source (pushHeuristicScores cfg state sid ctx)
      ("No strong signals", 0) with h | ⟨q, hq, hres⟩
    · exfalso
      have h2 := primaryFold_snd_ge_mem (pushHeuristicScores cfg state sid ctx)
        ("No strong signals", 0) p hp
      rw [h] at h2
      exact absurd h2 (not_le.mpr hpos)
    · refine ⟨q, hq, ?_, ?_⟩
      · show (primaryReasonOf (pushHeuristicScores cfg state sid ctx)).1 = _
        rw [primaryReasonOf, hres]
      · intro r hr
        have h3 := primaryFold_snd_ge_mem (pushHeuristicScores cfg state sid ctx)
          ("No strong signals", 0) r hr
        rw [hres] at h3
        exact h3

/-- Witness for `evaluatePushHeuristics_spec`'s hypothesis-bearing parts at
the specification scenario. -/
theorem evaluatePushHeuristics_spec_witness :
    (evaluatePushHeuristics scenarioConfig emptySampleState "ses_x"
      scenarioContext).confidence =
      jsRound ((((evaluatePushHeuristics scenarioConfig emptySampleState
        "ses_x" scenarioContext).heuristicScores.map Prod.snd).sum) /
        (((evaluatePushHeuristics scenarioConfig emptySampleState "ses_x"
          scenarioContext).heuristicScores.length : ℚ))) ∧
    (evaluatePushHeuristics scenarioConfig emptySampleState "ses_x"
      scenarioContext).shouldPush = false ∧
    (∃ q ∈ (evaluatePushHeuristics scenarioConfig emptySampleState "ses_x"
        scenarioContext).heuristicScores,
      (evaluatePushHeuristics scenarioConfig emptySampleState "ses_x"
        scenarioContext).primaryReason = heuristicDisplayName q.1 ∧
      ∀ r ∈ (evaluatePushHeuristics scenarioConfig emptySampleState "ses_x"
        scenarioContext).heuristicScores, r.2 ≤ q.2) :=
  ⟨evaluatePushHeuristics_spec.1 scenarioConfig emptySampleState "ses_x"
      scenarioContext
      (by rw [scenarioScoresField]; exact List.cons_ne_nil _ _),
   evaluatePushHeuristics_spec.2.2.2.1.2.2,
   evaluatePushHeuristics_spec.2.2.1 scenarioConfig emptySampleState "ses_x"
      scenarioContext ("failure_boundary", 80)
      (by rw [scenarioScoresField]; exact List.mem_cons_self _ _)
      (by norm_num)⟩

-- ============================================================================
-- Claim C3 — context cache: hit after unchanged state, miss after hash change
-- ============================================================================

/-- C3: for a frame present in the aggregate, (a) when the first assembly
call is a cache miss (and the cache has room, and the second call happens
within the TTL), the second call for the same frame against the unchanged
aggregate is a cache hit whose document is byte-identical to the first
call's, with the hit recorded in the metadata; (b) when the cached entry's
stored hash differs from the currently computed state hash, the call is a
cache miss that re-renders the context from the aggregate. -/
theorem generateFrameContext_cache_spec
    (state : StackState) (cache : JMap CacheEntry) (budget : TokenBudget)
    (cacheTTL t1 t2 now : Nat) (sid : String) (frame : FrameMetadata)
    (entry : CacheEntry)
    (hget : alGet state.frames sid = some frame) :
    ((alGet cache sid = none) → cache.length < 50 → ¬ t2 - t1 > cacheTTL →
      (generateFrameContextWithMetadata state cache budget cacheTTL t1
        sid).1.cacheHit = false ∧
      (generateFrameContextWithMetadata state
        (generateFrameContextWithMetadata state cache budget cacheTTL t1
          sid).2 budget cacheTTL t2 sid).1.cacheHit = true ∧
      (generateFrameContextWithMetadata state
        (generateFrameContextWithMetadata state cache budget cacheTTL t1
          sid).2 budget cacheTTL t2 sid).1.context =
        (generateFrameContextWithMetadata state cache budget cacheTTL t1
          sid).1.context ∧
      (generateFrameContextWithMetadata state
        (generateFrameContextWithMetadata state cache budget cacheTTL t1
          sid).2 budget cacheTTL t2 sid).1.metadata.cacheHit = true) ∧
    ((alGet cache sid = some entry) →
      entry.stateHash ≠ stateHashFor state sid frame →
      (generateFrameContextWithMetadata state cache budget cacheTTL now
        sid).1.cacheHit = false ∧
      (generateFrameContextWithMetadata state cache budget cacheTTL now
        sid).1.context =
        (renderFrameContext state budget now sid frame).1) := by
  constructor
  · intro hmiss hlen httl
    have h1 : generateFrameContextWithMetadata state cache budget cacheTTL t1
        sid =
      (⟨(renderFrameContext state budget t1 sid frame).1,
        (renderFrameContext state budget t1 sid frame).2, false⟩,
       cacheContext cache t1 sid
         (renderFrameContext state budget t1 sid frame).1
         (stateHashFor state sid frame)
         (renderFrameContext state budget t1 sid frame).2.totalTokens) := by
      unfold generateFrameContextWithMetadata
      rw [hget, hmiss]
    have h2 := cacheContext_get_self cache t1 sid
      (renderFrameContext state budget t1 sid frame).1
      (stateHashFor state sid frame)
      (renderFrameContext state budget t1 sid frame).2.totalTokens hlen
    refine ⟨by rw [h1], ?_, ?_, ?_⟩ <;>
    · rw [h1]
      unfold generateFrameContextWithMetadata
      rw [hget, h2]
      simp [isCacheValid, httl]
  · intro hhit hne
    have hvalid : isCacheValid (some entry) now cacheTTL
        (stateHashFor state sid frame) = false := by
      show (if now - entry.createdAt > cacheTTL then false
        else decide (entry.stateHash = stateHashFor state sid frame)) = false
      by_cases h : now - entry.createdAt > cacheTTL
      · rw [if_pos h]
      · rw [if_neg h]
        exact decide_eq_false hne
    constructor <;>
    · unfold generateFrameContextWithMetadata
      rw [hget, hhit]
      simp [hvalid]

/-- Witness for `generateFrameContext_cache_spec` on the one-frame aggregate:
miss at time 0 then hit at time 10 (TTL 30000) with identical documents, and
a stale-hash entry forcing a re-render at time 5. -/
theorem generateFrameContext_cache_spec_witness :
    ((generateFrameContextWithMetadata cacheSampleState [] DEFAULT_TOKEN_BUDGET
        30000 0 "f").1.cacheHit = false ∧
     (generateFrameContextWithMetadata cacheSampleState
        (generateFrameContextWithMetadata cacheSampleState []
          DEFAULT_TOKEN_BUDGET 30000 0 "f").2 DEFAULT_TOKEN_BUDGET 30000 10
        "f").1.cacheHit = true ∧
     (generateFrameContextWithMetadata cacheSampleState
        (generateFrameContextWithMetadata cacheSampleState []
          DEFAULT_TOKEN_BUDGET 30000 0 "f").2 DEFAULT_TOKEN_BUDGET 30000 10
        "f").1.context =
       (generateFrameContextWithMetadata cacheSampleState []
          DEFAULT_TOKEN_BUDGET 30000 0 "f").1.context ∧
     (generateFrameContextWithMetadata cacheSampleState
        (generateFrameContextWithMetadata cacheSampleState []
          DEFAULT_TOKEN_BUDGET 30000 0 "f").2 DEFAULT_TOKEN_BUDGET 30000 10
        "f").1.metadata.cacheHit = true) ∧
    ((generateFrameContextWithMetadata cacheSampleState
        [("f", bogusCacheEntry)] DEFAULT_TOKEN_BUDGET 30000 5
        "f").1.cacheHit = false ∧
     (generateFrameContextWithMetadata cacheSampleState
        [("f", bogusCacheEntry)] DEFAULT_TOKEN_BUDGET 30000 5 "f").1.context =
       (renderFrameContext cacheSampleState DEFAULT_TOKEN_BUDGET 5 "f"
         (sampleFrame "f" none FrameStatus.in_progress)).1) :=
  ⟨(generateFrameContext_cache_spec cacheSampleState [] DEFAULT_TOKEN_BUDGET
      30000 0 10 5 "f" (sampleFrame "f" none FrameStatus.in_progress)
      bogusCacheEntry rfl).1 rfl (by decide) (by decide),
   (generateFrameContext_cache_spec cacheSampleState [("f", bogusCacheEntry)]
      DEFAULT_TOKEN_BUDGET 30000 0 10 5 "f"
      (sampleFrame "f" none FrameStatus.in_progress)
      bogusCacheEntry rfl).2 rfl (by decide)⟩

-- ============================================================================
-- Claim C2 — the invalidation cascade
-- ============================================================================

/-- C2: invalidating a known frame stores it back with status `invalidated`,
the given reason and the invalidation timestamp; every `planned` descendant
is stored back invalidated with the derived cascade reason and collected in
the returned cascade list; every `in_progress` descendant is collected as a
warning but left unchanged in the store; every other descendant is left
completely unchanged; the invalidated frame and both lists are returned; and
when the invalidated frame was active, the active pointer moves to its
parent. `D` names the descendant list the operation walks; the `Nodup` and
non-self-reference hypotheses express the store's tree-shape invariants. -/
theorem invalidateFrame_cascade_spec
    (state : StackState) (now : Nat) (sessionID reason : String)
    (frame : FrameMetadata) (D : List FrameMetadata)
    (hget : alGet state.frames sessionID = some frame)
    (hD : D = getAllDescendants
        (alSet state.frames sessionID (invalidatedMainFrame frame now reason))
        (alSet state.frames sessionID
          (invalidatedMainFrame frame now reason)).length sessionID)
    (hnd : (D.map FrameMetadata.sessionID).Nodup)
    (hsid : sessionID ∉ D.map FrameMetadata.sessionID) :
    ((invalidateFrame state now sessionID reason).map (fun r => r.2.1) =
      some (invalidatedMainFrame frame now reason)) ∧
    ((invalidateFrame state now sessionID reason).map (fun r => r.2.2.1) =
      some ((D.filter (fun d => d.status = FrameStatus.planned)).map
        (cascadeInvalidate now reason))) ∧
    ((invalidateFrame state now sessionID reason).map (fun r => r.2.2.2) =
      some (D.filter (fun d => d.status = FrameStatus.in_progress))) ∧
    ((invalidateFrame state now sessionID reason).map
        (fun r => alGet r.1.frames sessionID) =
      some (some (invalidatedMainFrame frame now reason))) ∧
    (∀ d ∈ D, d.status = FrameStatus.planned →
      (invalidateFrame state now sessionID reason).map
          (fun r => alGet r.1.frames d.sessionID) =
        some (some (cascadeInvalidate now reason d))) ∧
    (∀ d ∈ D, d.status ≠ FrameStatus.planned →
      (invalidateFrame state now sessionID reason).map
          (fun r => alGet r.1.frames d.sessionID) =
        some (alGet state.frames d.sessionID)) ∧
    ((invalidateFrame state now sessionID reason).map
        (fun r => r.1.activeFrameID) =
      some (if state.activeFrameID = some sessionID then frame.parentSessionID
        else state.activeFrameID)) := by
  have heq : invalidateFrame state now sessionID reason =
      some ({ state with
          frames := (D.foldl (cascadeStep now reason)
            (alSet state.frames sessionID
              (invalidatedMainFrame frame now reason), [], [])).1,
          activeFrameID := if state.activeFrameID = some sessionID
            then frame.parentSessionID else state.activeFrameID,
          updatedAt := now },
        invalidatedMainFrame frame now reason,
        (D.foldl (cascadeStep now reason)
          (alSet state.frames sessionID
            (invalidatedMainFrame frame now reason), [], [])).2.1,
        (D.foldl (cascadeStep now reason)
          (alSet state.frames sessionID
            (invalidatedMainFrame frame now reason), [], [])).2.2) := by
    unfold invalidateFrame
    rw [hget, hD]
  have hne : ∀ d ∈ D, d.sessionID ≠ sessionID := by
    intro d hd hc
    exact hsid (hc ▸ List.mem_map_of_mem FrameMetadata.sessionID hd)
  refine ⟨by rw [heq]; rfl, ?_, ?_, ?_, ?_, ?_, by rw [heq]; rfl⟩
  · rw [heq]; simp only [Option.map_some']
    rw [cascadeFold_casc now reason D _ [] []]
    simp
  · rw [heq]; simp only [Option.map_some']
    rw [cascadeFold_warn now reason D _ [] []]
    simp
  · rw [heq]; simp only [Option.map_some']
    rw [cascadeFold_get_notmem now reason D _ [] [] sessionID hsid]
    rw [alGet_alSet_self]
  · intro d hd hp
    rw [heq]; simp only [Option.map_some']
    rw [cascadeFold_get_planned now reason D _ [] [] d hnd hd hp]
  · intro d hd hp
    rw [heq]; simp only [Option.map_some']
    rw [cascadeFold_get_nonplanned now reason D _ [] [] d hnd hd hp]
    rw [alGet_alSet_ne state.frames _ (hne d hd)]

/-- Witness for `invalidateFrame_cascade_spec` on the concrete aggregate:
invalidating the active frame `a` (children `p1` planned, `i1` in progress,
`c1` completed) cascades exactly to `p1`, warns exactly about `i1`, leaves
`c1` untouched, and moves the active pointer to the parent `r`. -/
theorem invalidateFrame_cascade_spec_witness :
    ((invalidateFrame cascadeSampleState 7 "a" "why").map (fun r => r.2.1) =
      some (invalidatedMainFrame (sampleFrame "a" (some "r")
        FrameStatus.in_progress) 7 "why")) ∧
    ((invalidateFrame cascadeSampleState 7 "a" "why").map (fun r => r.2.2.1) =
      some [cascadeInvalidate 7 "why"
        (sampleFrame "p1" (some "a") FrameStatus.planned)]) ∧
    ((invalidateFrame cascadeSampleState 7 "a" "why").map (fun r => r.2.2.2) =
      some [sampleFrame "i1" (some "a") FrameStatus.in_progress]) ∧
    ((invalidateFrame cascadeSampleState 7 "a" "why").map
        (fun r => alGet r.1.frames "a") =
      some (some (invalidatedMainFrame (sampleFrame "a" (some "r")
        FrameStatus.in_progress) 7 "why"))) ∧
    ((invalidateFrame cascadeSampleState 7 "a" "why").map
        (fun r => alGet r.1.frames "p1") =
      some (some (cascadeInvalidate 7 "why"
        (sampleFrame "p1" (some "a") FrameStatus.planned)))) ∧
    ((invalidateFrame cascadeSampleState 7 "a" "why").map
        (fun r => alGet r.1.frames "c1") =
      some (alGet cascadeSampleState.frames "c1")) ∧
    ((invalidateFrame cascadeSampleState 7 "a" "why").map
        (fun r => r.1.activeFrameID) = some (some "r")) := by
  have H := invalidateFrame_cascade_spec cascadeSampleState 7 "a" "why"
    (sampleFrame "a" (some "r") FrameStatus.in_progress)
    [sampleFrame "p1" (some "a") FrameStatus.planned,
     sampleFrame "i1" (some "a") FrameStatus.in_progress,
     sampleFrame "c1" (some "a") FrameStatus.completed]
    (by decide) (by decide) (by decide) (by decide)
  refine ⟨H.1, ?_, ?_, H.2.2.2.1, ?_, ?_, ?_⟩
  · exact H.2.1.trans (by decide)
  · exact H.2.2.1.trans (by decide)
  · exact H.2.2.2.2.1 (sampleFrame "p1" (some "a") FrameStatus.planned)
      (by decide) rfl
  · exact H.2.2.2.2.2.1 (sampleFrame "c1" (some "a") FrameStatus.completed)
      (by decide) (by decide)
  · exact H.2.2.2.2.2.2

-- ============================================================================
-- Claim C6 — re-invalidating an already-invalidated frame
-- ============================================================================

/-- C6 (counterexample): the claim states that invalidating an
already-invalidated frame is a no-op that does not modify the invalidation
reason or timestamps. On the concrete aggregate whose frame `f` is already
invalidated (reason `r1`, invalidated at 1), `FrameStateManager.invalidateFrame`
performs no status check: it succeeds again and overwrites the reason with
`r2` and both timestamps with the new clock. -/
theorem invalidateFrame_overwrites_terminal :
    ((alGet invalidatedSampleState.frames "f").map
      FrameMetadata.invalidationReason = some (some "r1")) ∧
    ((alGet invalidatedSampleState.frames "f").map
      FrameMetadata.invalidatedAt = some (some 1)) ∧
    ((invalidateFrame invalidatedSampleState 9 "f" "r2").map
      (fun r => (alGet r.1.frames "f").map
        FrameMetadata.invalidationReason) = some (some (some "r2"))) ∧
    ((invalidateFrame invalidatedSampleState 9 "f" "r2").map
      (fun r => (alGet r.1.frames "f").map FrameMetadata.invalidatedAt) =
      some (some (some 9))) ∧
    ((invalidateFrame invalidatedSampleState 9 "f" "r2").map
      (fun r => (alGet r.1.frames "f").map FrameMetadata.updatedAt) =
      some (some 9)) := by decide

/-- C6 (amended): re-invalidating an already-invalidated frame is not a
no-op — the operation succeeds again and overwrites `invalidationReason`,
`invalidatedAt` and `updatedAt` with the new reason and clock (the status
stays `invalidated`); but, because already-invalidated descendants are
neither `planned` nor `in_progress`, it re-triggers no cascade side effects:
the returned cascade and warning lists are empty and every descendant record
is left unchanged. -/
theorem invalidateFrame_terminal_reinvalidation
    (state : StackState) (now : Nat) (sessionID reason : String)
    (frame : FrameMetadata) (D : List FrameMetadata)
    (hget : alGet state.frames sessionID = some frame)
    (hinv : frame.status = FrameStatus.invalidated)
    (hD : D = getAllDescendants
        (alSet state.frames sessionID (invalidatedMainFrame frame now reason))
        (alSet state.frames sessionID
          (invalidatedMainFrame frame now reason)).length sessionID)
    (hnd : (D.map FrameMetadata.sessionID).Nodup)
    (hsid : sessionID ∉ D.map FrameMetadata.sessionID)
    (hDinv : ∀ d ∈ D, d.status = FrameStatus.invalidated) :
    ((invalidateFrame state now sessionID reason).map (fun r => r.2.1) =
      some (invalidatedMainFrame frame now reason)) ∧
    ((invalidatedMainFrame frame now reason).invalidationReason =
      some reason) ∧
    ((invalidatedMainFrame frame now reason).invalidatedAt = some now) ∧
    ((invalidatedMainFrame frame now reason).status =
      FrameStatus.invalidated) ∧
    ((invalidateFrame state now sessionID reason).map
        (fun r => alGet r.1.frames sessionID) =
      some (some (invalidatedMainFrame frame now reason))) ∧
    ((invalidateFrame state now sessionID reason).map (fun r => r.2.2.1) =
      some []) ∧
    ((invalidateFrame state now sessionID reason).map (fun r => r.2.2.2) =
      some []) ∧
    (∀ d ∈ D,
      (invalidateFrame state now sessionID reason).map
          (fun r => alGet r.1.frames d.sessionID) =
        some (alGet state.frames d.sessionID)) := by
  have heq : invalidateFrame state now sessionID reason =
      some ({ state with
          frames := (D.foldl (cascadeStep now reason)
            (alSet state.frames sessionID
              (invalidatedMainFrame frame now reason), [], [])).1,
          activeFrameID := if state.activeFrameID = some sessionID
            then frame.parentSessionID else state.activeFrameID,
          updatedAt := now },
        invalidatedMainFrame frame now reason,
        (D.foldl (cascadeStep now reason)
          (alSet state.frames sessionID
            (invalidatedMainFrame frame now reason), [], [])).2.1,
        (D.foldl (cascadeStep now reason)
          (alSet state.frames sessionID
            (invalidatedMainFrame frame now reason), [], [])).2.2) := by
    unfold invalidateFrame
    rw [hget, hD]
  have hne : ∀ d ∈ D, d.sessionID ≠ sessionID := by
    intro d hd hc
    exact hsid (hc ▸ List.mem_map_of_mem FrameMetadata.sessionID hd)
  have hnp : ∀ d ∈ D, ¬ d.status = FrameStatus.planned := by
    intro d hd hc
    rw [hDinv d hd] at hc
    cases hc
  have hni : ∀ d ∈ D, ¬ d.status = FrameStatus.in_progress := by
    intro d hd hc
    rw [hDinv d hd] at hc
    cases hc
  refine ⟨by rw [heq]; rfl, rfl, rfl, rfl, ?_, ?_, ?_, ?_⟩
  · rw [heq]; simp only [Option.map_some']
    rw [cascadeFold_get_notmem now reason D _ [] [] sessionID hsid]
    rw [alGet_alSet_self]
  · rw [heq]; simp only [Option.map_some']
    rw [cascadeFold_casc now reason D _ [] []]
    rw [List.filter_eq_nil.mpr (by intro d hd; simpa using hnp d hd)]
    simp
  · rw [heq]; simp only [Option.map_some']
    rw [cascadeFold_warn now reason D _ [] []]
    rw [List.filter_eq_nil.mpr (by intro d hd; simpa using hni d hd)]
    simp
  · intro d hd
    rw [heq]; simp only [Option.map_some']
    rw [cascadeFold_get_nonplanned now reason D _ [] [] d hnd hd (hnp d hd)]
    rw [alGet_alSet_ne state.frames _ (hne d hd)]

/-- Witness for `invalidateFrame_terminal_reinvalidation` on the aggregate
whose frame `f` and descendant `g` are already invalidated: re-invalidating
`f` with reason `r2` returns the overwritten frame, empty cascade and
warning lists, and leaves `g` unchanged. -/
theorem invalidateFrame_terminal_reinvalidation_witness :
    ((invalidateFrame invalidatedSampleState 9 "f" "r2").map
      (fun r => r.2.1) = some (invalidatedMainFrame invalidatedSampleFrame
        9 "r2")) ∧
    ((invalidatedMainFrame invalidatedSampleFrame 9 "r2").invalidationReason =
      some "r2") ∧
    ((invalidateFrame invalidatedSampleState 9 "f" "r2").map
      (fun r => r.2.2.1) = some []) ∧
    ((invalidateFrame invalidatedSampleState 9 "f" "r2").map
      (fun r => r.2.2.2) = some []) ∧
    ((invalidateFrame invalidatedSampleState 9 "f" "r2").map
        (fun r => alGet r.1.frames "g") =
      some (alGet invalidatedSampleState.frames "g")) := by
  have H := invalidateFrame_terminal_reinvalidation invalidatedSampleState 9
    "f" "r2" invalidatedSampleFrame
    [{ sampleFrame "g" (some "f") FrameStatus.invalidated with
         invalidationReason := some "Parent frame invalidated: r1",
         invalidatedAt := some 1 }]
    (by decide) (by decide) (by decide) (by decide) (by decide) (by decide)
  refine ⟨H.1, H.2.1, H.2.2.2.2.2.1, H.2.2.2.2.2.2.1, ?_⟩
  exact H.2.2.2.2.2.2.2
    { sampleFrame "g" (some "f") FrameStatus.invalidated with
        invalidationReason := some "Parent frame invalidated: r1",
        invalidatedAt := some 1 } (by decide)

-- ============================================================================
-- Claim C5 — identity replacement (`replaceFrameID`)
-- ============================================================================

theorem replaceFrameID_frames_cases
    (state : StackState) (now : Nat) (oldID newID : String)
    (frame : FrameMetadata)
    (hget : alGet state.frames oldID = some frame) :
    ((replaceFrameID state now oldID newID).frames =
        alMapValues (reparentChild oldID newID now)
          (alSet (alErase state.frames oldID) newID
            { frame with sessionID := newID, updatedAt := now })) ∨
    (∃ pid parent pcs,
      frame.parentSessionID = some pid ∧
      alGet (alMapValues (reparentChild oldID newID now)
        (alSet (alErase state.frames oldID) newID
          { frame with sessionID := newID, updatedAt := now })) pid =
        some parent ∧
      parent.plannedChildren = some pcs ∧ oldID ∈ pcs ∧
      (replaceFrameID state now oldID newID).frames =
        alSet (alMapValues (reparentChild oldID newID now)
          (alSet (alErase state.frames oldID) newID
            { frame with sessionID := newID, updatedAt := now })) pid
          { parent with
            plannedChildren := some (replaceFirst pcs oldID newID),
            updatedAt := now }) := by
  rcases hfp : frame.parentSessionID with _ | pid
  · left
    unfold replaceFrameID
    rw [hget]
    simp only [hfp]
  · rcases hgp : alGet (alMapValues (reparentChild oldID newID now)
        (alSet (alErase state.frames oldID) newID
          { frame with sessionID := newID, updatedAt := now })) pid
      with _ | parent
    · rw [hfp] at hgp
      left
      unfold replaceFrameID
      rw [hget]
      simp only [hfp, hgp]
    · rw [hfp] at hgp
      rcases hpc : parent.plannedChildren with _ | pcs
      · left
        unfold replaceFrameID
        rw [hget]
        simp only [hfp, hgp, hpc]
      · by_cases hmem : oldID ∈ pcs
        · right
          refine ⟨pid, parent, pcs, rfl, hgp, hpc, hmem, ?_⟩
          unfold replaceFrameID
          rw [hget]
          simp only [hfp, hgp, hpc, if_pos hmem]
        · left
          unfold replaceFrameID
          rw [hget]
          simp only [hfp, hgp, hpc, if_neg hmem]

theorem alGet_alMapValues (g : α → α) (m : JMap α) (k : String) :
    alGet (alMapValues g m) k = (alGet m k).map g := by
  induction m with
  | nil => rfl
  | cons p rest ih =>
      obtain ⟨k', v⟩ := p
      by_cases h : k' = k
      · simp [alMapValues, alGet, h]
      · simp only [alMapValues, List.map_cons, alGet, if_neg h]
        simpa [alMapValues] using ih

theorem replaceFirst_not_mem [DecidableEq α] :
    ∀ (l : List α) (a b : α), l.count a ≤ 1 → b ≠ a →
      a ∉ replaceFirst l a b
  | [], _, _, _, _ => by simp [replaceFirst]
  | x :: xs, a, b, hc, hb => by
      by_cases hx : x = a
      · subst hx
        rw [List.count_cons_self] at hc
        have hzero : xs.count x = 0 := by omega
        have hrw : replaceFirst (x :: xs) x b = b :: xs := by
          simp [replaceFirst]
        rw [hrw]
        simp only [List.mem_cons, not_or]
        exact ⟨fun h => hb h.symm, List.count_eq_zero.mp hzero⟩
      · rw [List.count_cons_of_ne (fun h => hx h.symm)] at hc
        have hrw : replaceFirst (x :: xs) a b = x :: replaceFirst xs a b := by
          simp [replaceFirst, hx]
        rw [hrw]
        simp only [List.mem_cons, not_or]
        exact ⟨fun h => hx h.symm, replaceFirst_not_mem xs a b hc hb⟩

theorem replaceFirst_mem [DecidableEq α] :
    ∀ (l : List α) (a b : α), a ∈ l → b ∈ replaceFirst l a b
  | [], _, _, h => by simp at h
  | x :: xs, a, b, h => by
      by_cases hx : x = a
      · simp [replaceFirst, hx]
      · have hxs : a ∈ xs := by
          rcases List.mem_cons.mp h with rfl | h
          · exact absurd rfl hx
          · exact h
        have hrw : replaceFirst (x :: xs) a b = x :: replaceFirst xs a b := by
          simp [replaceFirst, hx]
        rw [hrw]
        exact List.mem_cons_of_mem x (replaceFirst_mem xs a b hxs)

theorem replaceFrameID_roots_active
    (state : StackState) (now : Nat) (oldID newID : String)
    (frame : FrameMetadata)
    (hget : alGet state.frames oldID = some frame) :
    ((replaceFrameID state now oldID newID).rootFrameIDs =
      replaceFirst state.rootFrameIDs oldID newID) ∧
    ((replaceFrameID state now oldID newID).activeFrameID =
      if state.activeFrameID = some oldID then some newID
      else state.activeFrameID) := by
  constructor <;> (unfold replaceFrameID; rw [hget])

theorem reparentChild_parent_ne (oldID newID : String) (now : Nat)
    (f : FrameMetadata) (hne : newID ≠ oldID) :
    (reparentChild oldID newID now f).parentSessionID ≠ some oldID := by
  unfold reparentChild
  by_cases h : f.parentSessionID = some oldID
  · rw [if_pos h]
    intro hc
    exact hne (Option.some_injective _ hc)
  · rw [if_neg h]
    exact h

theorem reparentChild_plannedChildren (oldID newID : String) (now : Nat)
    (f : FrameMetadata) :
    (reparentChild oldID newID now f).plannedChildren = f.plannedChildren := by
  unfold reparentChild
  by_cases h : f.parentSessionID = some oldID
  · rw [if_pos h]
  · rw [if_neg h]

/-- C5 (amended): after replacing an existing frame id `oldID` by a fresh
`newID` (in an aggregate where the frame is not its own parent and the root
list holds at most one reference), zero references to `oldID` remain: the
frames-map key is gone, no stored frame's parent pointer is `oldID` (a child
of `oldID` now points at `newID`), the parent's planned-children entry is
rewritten from `oldID` to `newID`, and the root list and active pointer
refer to `newID` wherever they referred to `oldID`; the renamed frame keeps
all its fields except `sessionID` and the refreshed `updatedAt`. -/
theorem replaceFrameID_rewires
    (state : StackState) (now : Nat) (oldID newID : String)
    (frame : FrameMetadata)
    (hget : alGet state.frames oldID = some frame)
    (hne : newID ≠ oldID)
    (hparold : frame.parentSessionID ≠ some oldID)
    (hparnew : frame.parentSessionID ≠ some newID)
    (hroots : state.rootFrameIDs.count oldID ≤ 1) :
    (alGet (replaceFrameID state now oldID newID).frames oldID = none) ∧
    (alGet (replaceFrameID state now oldID newID).frames newID =
      some { frame with sessionID := newID, updatedAt := now }) ∧
    (∀ (k : String) (f : FrameMetadata),
      alGet (replaceFrameID state now oldID newID).frames k = some f →
      f.parentSessionID ≠ some oldID) ∧
    (∀ (k : String) (f : FrameMetadata),
      alGet state.frames k = some f → f.parentSessionID = some oldID →
      k ≠ oldID → k ≠ newID →
      (alGet (replaceFrameID state now oldID newID).frames k).map
        FrameMetadata.parentSessionID = some (some newID)) ∧
    (∀ (pid : String) (parent : FrameMetadata) (pcs : List String),
      frame.parentSessionID = some pid → pid ≠ oldID → pid ≠ newID →
      alGet state.frames pid = some parent →
      parent.plannedChildren = some pcs → oldID ∈ pcs → pcs.count oldID ≤ 1 →
      ∃ pcs2,
        (alGet (replaceFrameID state now oldID newID).frames pid).map
          FrameMetadata.plannedChildren = some (some pcs2) ∧
        oldID ∉ pcs2 ∧ newID ∈ pcs2) ∧
    (oldID ∉ (replaceFrameID state now oldID newID).rootFrameIDs) ∧
    (oldID ∈ state.rootFrameIDs →
      newID ∈ (replaceFrameID state now oldID newID).rootFrameIDs) ∧
    ((replaceFrameID state now oldID newID).activeFrameID ≠ some oldID) ∧
    (state.activeFrameID = some oldID →
      (replaceFrameID state now oldID newID).activeFrameID = some newID) := by
  have hca := replaceFrameID_frames_cases state now oldID newID frame hget
  have hra := replaceFrameID_roots_active state now oldID newID frame hget
  have hF2parent : ∀ (k : String) (f : FrameMetadata),
      alGet (alMapValues (reparentChild oldID newID now)
        (alSet (alErase state.frames oldID) newID
          { frame with sessionID := newID, updatedAt := now })) k = some f →
      f.parentSessionID ≠ some oldID := by
    intro k f h
    rw [alGet_alMapValues] at h
    rcases hF1 : alGet (alSet (alErase state.frames oldID) newID
        { frame with sessionID := newID, updatedAt := now }) k with _ | f0
    · rw [hF1] at h
      cases h
    · rw [hF1] at h
      have hf : f = reparentChild oldID newID now f0 :=
        (Option.some.inj h).symm
      rw [hf]
      exact reparentChild_parent_ne oldID newID now f0 hne
  refine ⟨?_, ?_, ?_, ?_, ?_, ?_, ?_, ?_, ?_⟩
  · rcases hca with hL | ⟨pid, parent, pcs, hfp2, hgp, hpc, hmem, hR⟩
    · rw [hL, alGet_alMapValues,
        alGet_alSet_ne _ _ (fun h => hne h.symm), alGet_alErase_self]
      rfl
    · have hpo : oldID ≠ pid := by
        intro h
        exact hparold (by rw [hfp2, h])
      rw [hR, alGet_alSet_ne _ _ hpo, alGet_alMapValues,
        alGet_alSet_ne _ _ (fun h => hne h.symm), alGet_alErase_self]
      rfl
  · have hgf1 : reparentChild oldID newID now
        { frame with sessionID := newID, updatedAt := now } =
        { frame with sessionID := newID, updatedAt := now } := by
      unfold reparentChild
      rw [if_neg (show ¬ ({ frame with
          sessionID := newID,
          updatedAt := now } : FrameMetadata).parentSessionID = some oldID
        from hparold)]
    rcases hca with hL | ⟨pid, parent, pcs, hfp2, hgp, hpc, hmem, hR⟩
    · rw [hL, alGet_alMapValues, alGet_alSet_self]
      rw [Option.map_some', hgf1]
    · have hpn : newID ≠ pid := by
        intro h
        exact hparnew (by rw [hfp2, h])
      rw [hR, alGet_alSet_ne _ _ hpn, alGet_alMapValues, alGet_alSet_self]
      rw [Option.map_some', hgf1]
  · intro k f hk
    rcases hca with hL | ⟨pid, parent, pcs, hfp2, hgp, hpc, hmem, hR⟩
    · rw [hL] at hk
      exact hF2parent k f hk
    · rw [hR] at hk
      by_cases hkp : k = pid
      · subst hkp
        rw [alGet_alSet_self] at hk
        have hf : f = { parent with
            plannedChildren := some (replaceFirst pcs oldID newID),
            updatedAt := now } := (Option.some.inj hk).symm
        rw [hf]
        exact hF2parent k parent hgp
      · rw [alGet_alSet_ne _ _ hkp] at hk
        exact hF2parent k f hk
  · intro k f hkget hfpar hko hkn
    have hF1k : alGet (alSet (alErase state.frames oldID) newID
        { frame with sessionID := newID, updatedAt := now }) k = some f := by
      rw [alGet_alSet_ne _ _ hkn, alGet_alErase_ne _ hko]
      exact hkget
    have hgf : (reparentChild oldID newID now f).parentSessionID =
        some newID := by
      unfold reparentChild
      rw [if_pos hfpar]
    rcases hca with hL | ⟨pid, parent, pcs, hfp2, hgp, hpc, hmem, hR⟩
    · rw [hL, alGet_alMapValues, hF1k, Option.map_some', Option.map_some',
        hgf]
    · by_cases hkp : k = pid
      · subst hkp
        have hpar : parent = reparentChild oldID newID now f := by
          rw [alGet_alMapValues, hF1k, Option.map_some'] at hgp
          exact (Option.some.inj hgp).symm
        rw [hR, alGet_alSet_self, Option.map_some']
        show some ({ parent with
            plannedChildren := some (replaceFirst pcs oldID newID),
            updatedAt := now } : FrameMetadata).parentSessionID =
          some (some newID)
        rw [show ({ parent with
            plannedChildren := some (replaceFirst pcs oldID newID),
            updatedAt := now } : FrameMetadata).parentSessionID =
          parent.parentSessionID from rfl]
        rw [hpar, hgf]
      · rw [hR, alGet_alSet_ne _ _ hkp, alGet_alMapValues, hF1k,
          Option.map_some', Option.map_some', hgf]
  · intro pid parent pcs hfp hpo hpn hgetp hpc hmem hcount
    have hF1p : alGet (alSet (alErase state.frames oldID) newID
        { frame with sessionID := newID, updatedAt := now }) pid =
        some parent := by
      rw [alGet_alSet_ne _ _ hpn, alGet_alErase_ne _ hpo]
      exact hgetp
    have hF2p : alGet (alMapValues (reparentChild oldID newID now)
        (alSet (alErase state.frames oldID) newID
          { frame with sessionID := newID, updatedAt := now })) pid =
        some (reparentChild oldID newID now parent) := by
      rw [alGet_alMapValues, hF1p, Option.map_some']
    have hpc2 : (reparentChild oldID newID now parent).plannedChildren =
        some pcs := by
      rw [reparentChild_plannedChildren]
      exact hpc
    have heqf : (replaceFrameID state now oldID newID).frames =
        alSet (alMapValues (reparentChild oldID newID now)
          (alSet (alErase state.frames oldID) newID
            { frame with sessionID := newID, updatedAt := now })) pid
          { reparentChild oldID newID now parent with
            plannedChildren := some (replaceFirst pcs oldID newID),
            updatedAt := now } := by
      rw [hfp] at hF2p
      unfold replaceFrameID
      rw [hget]
      simp only [hfp, hF2p, hpc2, if_pos hmem]
    refine ⟨replaceFirst pcs oldID newID, ?_, ?_, ?_⟩
    · rw [heqf, alGet_alSet_self, Option.map_some']
    · exact replaceFirst_not_mem pcs oldID newID hcount hne
    · exact replaceFirst_mem pcs oldID newID hmem
  · rw [hra.1]
    exact replaceFirst_not_mem state.rootFrameIDs oldID newID hroots hne
  · intro h
    rw [hra.1]
    exact replaceFirst_mem state.rootFrameIDs oldID newID h
  · rw [hra.2]
    by_cases h : state.activeFrameID = some oldID
    · rw [if_pos h]
      intro hc
      exact hne (Option.some.inj hc)
    · rw [if_neg h]
      exact h
  · intro h
    rw [hra.2, if_pos h]

/-- C5 (counterexample): the claim states that after identity replacement
the frame's own fields are otherwise unchanged. On the concrete aggregate,
renaming `old` to `new` at time 7 bumps the stored frame's `updatedAt` from
0 to 7 (the store re-saves the record), so the fields are not otherwise
unchanged. -/
theorem replaceFrameID_refreshes_updatedAt :
    ((alGet replaceSampleState.frames "old").map FrameMetadata.updatedAt =
      some 0) ∧
    ((alGet (replaceFrameID replaceSampleState 7 "old" "new").frames
      "new").map FrameMetadata.updatedAt = some 7) ∧
    ((alGet (replaceFrameID replaceSampleState 7 "old" "new").frames
      "new").map FrameMetadata.title =
      (alGet replaceSampleState.frames "old").map FrameMetadata.title) := by
  decide

/-- Witness for `replaceFrameID_rewires` on the concrete aggregate: renaming
the active planned frame `old` (child of `par`, itself listed in `par`'s
planned children, with child `ch`) to `new` leaves no `old` reference in the
map, reparents `ch` onto `new`, rewrites `par`'s planned-children entry, and
moves the active pointer. -/
theorem replaceFrameID_rewires_witness :
    (alGet (replaceFrameID replaceSampleState 7 "old" "new").frames "old" =
      none) ∧
    (alGet (replaceFrameID replaceSampleState 7 "old" "new").frames "new" =
      some { sampleFrame "old" (some "par") FrameStatus.planned with
        plannedChildren := some ["ch"], sessionID := "new",
        updatedAt := 7 }) ∧
    ((alGet (replaceFrameID replaceSampleState 7 "old" "new").frames
      "ch").map FrameMetadata.parentSessionID = some (some "new")) ∧
    (∃ pcs2,
      (alGet (replaceFrameID replaceSampleState 7 "old" "new").frames
        "par").map FrameMetadata.plannedChildren = some (some pcs2) ∧
      "old" ∉ pcs2 ∧ "new" ∈ pcs2) ∧
    ("old" ∉ (replaceFrameID replaceSampleState 7 "old" "new").rootFrameIDs) ∧
    ((replaceFrameID replaceSampleState 7 "old" "new").activeFrameID ≠
      some "old") ∧
    ((replaceFrameID replaceSampleState 7 "old" "new").activeFrameID =
      some "new") := by
  have H := replaceFrameID_rewires replaceSampleState 7 "old" "new"
    { sampleFrame "old" (some "par") FrameStatus.planned with
        plannedChildren := some ["ch"] }
    (by decide) (by decide) (by decide) (by decide) (by decide)
  refine ⟨H.1, H.2.1, ?_, ?_, H.2.2.2.2.2.1, H.2.2.2.2.2.2.2.1, ?_⟩
  · exact H.2.2.2.1 "ch" (sampleFrame "ch" (some "old") FrameStatus.planned)
      (by decide) rfl (by decide) (by decide)
  · exact H.2.2.2.2.1 "par"
      { sampleFrame "par" none FrameStatus.in_progress with
          plannedChildren := some ["old"] } ["old"]
      rfl (by decide) (by decide) (by decide) rfl (by decide) (by decide)
  · exact H.2.2.2.2.2.2.2.2 rfl
